import Mathlib

/-!
# MemeHustle server: a shallow embedding of `src/server/server.js`

The server is a set of Express route handlers over three external collaborators:
the record store (Supabase), the text generation service (Gemini) and the
realtime hub (socket.io).  Each handler is embedded as a pure function that

* receives the process-wide `cache` object and returns its next value,
* receives the answers of the external calls it may issue (store results,
  generation results, the clock, `Math.random()`), and
* returns the ordered list of effects it performed together with the HTTP
  response it sent.

Request data is dynamically typed in the source, so request bodies and store rows
are values of `JsVal`.  Numbers of the model are integers: the model does not
cover fractional numbers.  JavaScript numbers are IEEE 754 doubles, so the sum of
the vote handler is rounded to the nearest double by `jsAdd`; it is the exact
integer sum as long as the result has magnitude at most 2^53.
-/

namespace MemeHustle

/-! ## JavaScript values -/

/-- JSON-shaped JavaScript values, with `undefined` for a missing property. -/
inductive JsVal where
  | undefined
  | null
  | bool (b : Bool)
  | num (n : Int)
  | str (s : String)
  | arr (items : List JsVal)
  | obj (fields : List (String × JsVal))

/-- A plain object: its own properties in insertion order, keys pairwise distinct. -/
abbrev JsObj := List (String × JsVal)

/-- A thrown JavaScript exception that is not a store error (here always a `TypeError`). -/
structure JsError where
  message : String

/-- Property read `o.k`: the value of the own property `k`, `undefined` when there is none. -/
def getField (o : JsObj) (k : String) : JsVal :=
  match o.find? (fun f => f.1 == k) with
  | some f => f.2
  | none => JsVal.undefined

/-- Property write as done by an object literal `{...o, k: v}`: an existing key keeps its
place and takes the new value, a new key is appended. -/
def setField : JsObj → String → JsVal → JsObj
  | [], k, v => [(k, v)]
  | f :: rest, k, v => if f.1 == k then (k, v) :: rest else f :: setField rest k v

/-- Strict equality `v === s` against a string. -/
def strictEqStr (v : JsVal) (s : String) : Bool :=
  match v with
  | JsVal.str t => t == s
  | _ => false

/-- Strict equality `v === n` against a number. -/
def strictEqNum (v : JsVal) (n : Int) : Bool :=
  match v with
  | JsVal.num m => m == n
  | _ => false

/-- `ToBoolean`: the falsy values are `undefined`, `null`, `false`, `0` and the empty string. -/
def truthy : JsVal → Bool
  | JsVal.undefined => false
  | JsVal.null => false
  | JsVal.bool b => b
  | JsVal.num n => n != 0
  | JsVal.str s => s != ""
  | JsVal.arr _ => true
  | JsVal.obj _ => true

/-- The operator `a || b`. -/
def jsOr (a b : JsVal) : JsVal := if truthy a then a else b

/-- The IEEE 754 double nearest to an integer, ties going to the even significand: an integer
of magnitude at most 2^53 is a double itself, a larger one is rounded to a multiple of the
spacing `2 ^ (log2 |x| - 52)` of the doubles around it.  (Magnitudes from 2^1024 on are
`Infinity` and outside the model; a finite double plus or minus one never gets there.) -/
def roundToDouble (x : Int) : Int :=
  let m := x.natAbs
  if m ≤ 2 ^ 53 then x
  else
    let ulp := 2 ^ (Nat.log2 m - 52)
    let q := m / ulp
    let r := m % ulp
    let rounded :=
      if 2 * r < ulp then q
      else if ulp < 2 * r then q + 1
      else if q % 2 = 0 then q else q + 1
    x.sign * ((rounded * ulp : Nat) : Int)

/-- The operator `a + b` on two numbers: the exact sum rounded to the nearest double. -/
def jsAdd (a b : Int) : Int := roundToDouble (a + b)

mutual
/-- `ToString` of a value, as applied by a template literal.  An object parsed from JSON has
no callable own `toString`, so an own key of that name makes the conversion throw. -/
def JsVal.toStr : JsVal → Except JsError String
  | JsVal.undefined => Except.ok "undefined"
  | JsVal.null => Except.ok "null"
  | JsVal.bool b => Except.ok (if b then "true" else "false")
  | JsVal.num n => Except.ok (toString n)
  | JsVal.str s => Except.ok s
  | JsVal.arr items => JsVal.joinItems "," items
  | JsVal.obj fields =>
      if fields.any (fun f => f.1 == "toString") then
        Except.error ⟨"Cannot convert object to primitive value"⟩
      else Except.ok "[object Object]"
/-- `Array.prototype.join(sep)` on the items of an array. -/
def JsVal.joinItems (sep : String) : List JsVal → Except JsError String
  | [] => Except.ok ""
  | [x] => JsVal.itemStr x
  | x :: y :: rest =>
      match JsVal.itemStr x with
      | Except.error e => Except.error e
      | Except.ok a =>
        match JsVal.joinItems sep (y :: rest) with
        | Except.error e => Except.error e
        | Except.ok b => Except.ok (a ++ sep ++ b)
/-- The text of one array item inside `join`: `undefined` and `null` give the empty string. -/
def JsVal.itemStr : JsVal → Except JsError String
  | JsVal.undefined => Except.ok ""
  | JsVal.null => Except.ok ""
  | JsVal.bool b => Except.ok (if b then "true" else "false")
  | JsVal.num n => Except.ok (toString n)
  | JsVal.str s => Except.ok s
  | JsVal.arr items => JsVal.joinItems "," items
  | JsVal.obj fields =>
      if fields.any (fun f => f.1 == "toString") then
        Except.error ⟨"Cannot convert object to primitive value"⟩
      else Except.ok "[object Object]"
end

/-- The method call `v.join(sep)`: only an array has a `join` method, every other value
(also `undefined`, a missing field) throws a `TypeError`. -/
def jsJoin (v : JsVal) (sep : String) : Except JsError String :=
  match v with
  | JsVal.arr items => JsVal.joinItems sep items
  | _ => Except.error ⟨"tags.join is not a function"⟩

/-- A tag list as a JavaScript value: an array of strings. -/
def tagsVal (tags : List String) : JsVal := JsVal.arr (tags.map JsVal.str)

/-- White space and line terminators of ECMAScript, the characters `trim` and `parseInt` skip. -/
def isJsWhiteSpace (c : Char) : Bool :=
  let n := c.toNat
  n == 0x09 || n == 0x0A || n == 0x0B || n == 0x0C || n == 0x0D || n == 0x20 || n == 0xA0 ||
  n == 0x1680 || (0x2000 ≤ n && n ≤ 0x200A) || n == 0x2028 || n == 0x2029 || n == 0x202F ||
  n == 0x205F || n == 0x3000 || n == 0xFEFF

/-- The method `String.prototype.trim`. -/
def jsTrim (s : String) : String :=
  String.mk ((s.data.dropWhile isJsWhiteSpace).reverse.dropWhile isJsWhiteSpace).reverse

/-! ## External collaborators -/

/-- The error object of a failed store call (`error` of the Supabase answer). -/
structure StoreError where
  message : String

/-- Answer of a store call: `error` set, or `data`. -/
abbrev StoreResult (α : Type) := Except StoreError α

/-- Answer of `model.generateContent(prompt)` followed by `result.response.text()`:
the raw text, or an exception. -/
abbrev GenOutcome := Except JsError String

/-- A reading of `Math.random()`: the fraction `num / den`, at least 0 and below 1. -/
structure RandomDraw where
  num : Nat
  den : Nat
  lt_one : num < den

/-- The index `Math.floor(Math.random() * n)`. -/
def RandomDraw.floorMul (r : RandomDraw) (n : Nat) : Nat := r.num * n / r.den

/-- The object literal handed to `from('memes').insert([...])`. -/
structure MemeRecord where
  title : JsVal
  image_url : JsVal
  tags : JsVal
  owner_id : JsVal
  ai_caption : String
  vibe_analysis : String
  upvotes : Int
  created_at : Int
  overlay_text : JsVal
  overlay_position : JsVal

/-- The object literal handed to `from('bids').insert([...])`. -/
structure BidRecord where
  meme_id : String
  user_id : JsVal
  credits : JsVal
  created_at : Int

/-- Observable effects of a handler, in the order they are performed. -/
inductive Effect where
  -- `from('memes').select('*').order('upvotes', {ascending: false})`
  | selectMemes
  -- `from('memes').select('*').order('upvotes', {ascending: false}).limit(n)`
  | selectTopMemes (limit : Nat)
  -- `from('memes').select('upvotes').eq('id', id).single()`
  | selectUpvotes (id : String)
  -- `from('memes').update({upvotes}).eq('id', id).select().single()`
  | updateUpvotes (id : String) (upvotes : Int)
  -- `from('memes').insert([r]).select().single()`
  | insertMeme (r : MemeRecord)
  -- `from('bids').insert([r]).select().single()`
  | insertBid (r : BidRecord)
  -- `from('bids').select('*').eq('meme_id', id).order('credits', {ascending: false})`
  | selectBids (memeId : String)
  -- `model.generateContent(prompt)`
  | generate (prompt : String)
  -- `io.emit(event, payload)`: a broadcast to every connected client
  | emit (event : String) (payload : JsVal)
  -- `console.error(label, error)`
  | logError (label : String)

/-- The HTTP response: `res.json(body)` has status 200, `res.status(500).json(body)` 500. -/
structure Response where
  status : Nat
  body : JsVal

/-- What one handler run did: its effects in order, and its response.  In every path of every
handler the call of `res.json` is the last statement, so the response comes after the last
effect of the trace. -/
structure Outcome where
  trace : List Effect
  response : Response

/-- The memo map `cache.aiResponses`: entries in insertion order. -/
abbrev Memo := List (String × String)

/-- The method `Map.prototype.set`. -/
def Memo.set : Memo → String → String → Memo
  | [], k, v => [(k, v)]
  | e :: rest, k, v => if e.1 == k then (k, v) :: rest else e :: Memo.set rest k v

/-- The process-wide `cache` object. -/
structure Cache where
  leaderboard : Option (List JsObj)
  lastLeaderboardUpdate : Int
  aiResponses : Memo

/-- The `cache` object at process start. -/
def Cache.init : Cache := ⟨none, 0, []⟩

/-- `res.json(body)` -/
def okResponse (body : JsVal) : Response := ⟨200, body⟩

/-- `res.status(500).json({ error: message })` -/
def errorResponse (message : String) : Response :=
  ⟨500, JsVal.obj [("error", JsVal.str message)]⟩

/-! ## Effect classification -/

/-- Store calls, reads and writes. -/
def Effect.isStoreCall : Effect → Bool
  | Effect.selectMemes => true
  | Effect.selectTopMemes _ => true
  | Effect.selectUpvotes _ => true
  | Effect.updateUpvotes _ _ => true
  | Effect.insertMeme _ => true
  | Effect.insertBid _ => true
  | Effect.selectBids _ => true
  | _ => false

/-- Store writes. -/
def Effect.isStoreWrite : Effect → Bool
  | Effect.updateUpvotes _ _ => true
  | Effect.insertMeme _ => true
  | Effect.insertBid _ => true
  | _ => false

/-- Realtime broadcasts. -/
def Effect.isEmit : Effect → Bool
  | Effect.emit _ _ => true
  | _ => false

/-- External generation requests. -/
def Effect.isGenerate : Effect → Bool
  | Effect.generate _ => true
  | _ => false

/-- The upvote value of an update call. -/
def Effect.writtenUpvotes : Effect → Option Int
  | Effect.updateUpvotes _ u => some u
  | _ => none

/-! ## `POST /api/memes/:id/vote` -/

/-- Handler of `POST /api/memes/:id/vote` (server.js 149-182).  `fetchRes` answers the read of
the current upvotes, `updateRes` answers the update. -/
def postMemeVote (cache : Cache) (id : String) (body : JsObj)
    (fetchRes : StoreResult Int) (updateRes : StoreResult JsObj) : Cache × Outcome :=
  let vote_type := getField body "vote_type"
  let increment : Int := if strictEqStr vote_type "up" then 1 else -1
  match fetchRes with
  | Except.error _ =>
      (cache, ⟨[Effect.selectUpvotes id, Effect.logError "Error voting on meme:"],
        errorResponse "Failed to vote on meme"⟩)
  | Except.ok upvotes =>
      let newUpvotes := jsAdd upvotes increment
      match updateRes with
      | Except.error _ =>
          (cache, ⟨[Effect.selectUpvotes id, Effect.updateUpvotes id newUpvotes,
              Effect.logError "Error voting on meme:"],
            errorResponse "Failed to vote on meme"⟩)
      | Except.ok meme =>
          (cache, ⟨[Effect.selectUpvotes id, Effect.updateUpvotes id newUpvotes,
              Effect.emit "vote_update"
                (JsVal.obj [("meme_id", JsVal.str id), ("new_upvotes", getField meme "upvotes")])],
            okResponse (JsVal.obj meme)⟩)

/-! ## Caption and vibe generators -/

/-- Fallback captions of `generateAICaption` (server.js 59-65). -/
def captionFallbacks : List String :=
  ["YOLO to the moon! 🚀",
   "Hack the planet, one meme at a time",
   "404: Normalcy not found",
   "Loading... cyberpunk vibes activated",
   "Glitch in the matrix detected"]

/-- Fallback vibes of `generateVibeAnalysis` (server.js 87-93). -/
def vibeFallbacks : List String :=
  ["Neon Crypto Chaos",
   "Digital Punk Energy",
   "Matrix Glitch Mode",
   "Cyber Stonks Vibes",
   "Retro Future Feels"]

/-- The pick `fallbacks[Math.floor(Math.random() * fallbacks.length)]` from a non-empty list. -/
def pickFallback (fallbacks : List String) (h : 0 < fallbacks.length) (r : RandomDraw) : String :=
  fallbacks.get ⟨r.floorMul fallbacks.length,
    (Nat.div_lt_iff_lt_mul (Nat.lt_of_le_of_lt (Nat.zero_le _) r.lt_one)).2
      (by rw [Nat.mul_comm]; exact Nat.mul_lt_mul_of_pos_left r.lt_one h)⟩

/-- The prompt of `generateAICaption` for the text of `tags.join(', ')`. -/
def captionPrompt (tagList : String) : String :=
  "Generate a funny, cyberpunk-style caption for a meme with these tags: " ++ tagList ++
  ". Make it edgy, internet culture aware, and under 100 characters. Examples: " ++
  "\"Doge hacks the matrix\", \"Stonks going to the digital moon\", \"Error 404: Chill not found\""

/-- The prompt of `generateVibeAnalysis` for the text of the title and of `tags.join(', ')`. -/
def vibePrompt (title tagList : String) : String :=
  "Analyze the vibe of this meme: Title: \"" ++ title ++ "\", Tags: " ++ tagList ++
  ". Return a short cyberpunk-style vibe description (2-4 words). Examples: " ++
  "\"Neon Crypto Chaos\", \"Retro Stonks Vibes\", \"Digital Rebellion Energy\", \"Matrix Glitch Mode\""

/-- What a generator call returned and did. -/
structure GenResult where
  value : String
  cache : Cache
  trace : List Effect

/-- The generator `generateAICaption(tags)` (server.js 42-68).  `svc` answers the external
request if one is issued, `rnd` is the reading of `Math.random()` if one is taken.  An
exception of the function itself (outside its `try`) is the `Except.error` result. -/
def generateAICaption (cache : Cache) (tags : JsVal) (svc : GenOutcome) (rnd : RandomDraw) :
    Except JsError GenResult :=
  match jsJoin tags "_" with
  | Except.error e => Except.error e
  | Except.ok joined =>
    let cacheKey := "caption_" ++ joined
    match cache.aiResponses.lookup cacheKey with
    | some cached => Except.ok ⟨cached, cache, []⟩
    | none =>
      match jsJoin tags ", " with
      | Except.error _ =>
          Except.ok ⟨pickFallback captionFallbacks (by decide) rnd, cache,
            [Effect.logError "Gemini API error:"]⟩
      | Except.ok tagList =>
        match svc with
        | Except.error _ =>
            Except.ok ⟨pickFallback captionFallbacks (by decide) rnd, cache,
              [Effect.generate (captionPrompt tagList), Effect.logError "Gemini API error:"]⟩
        | Except.ok text =>
            let caption := jsTrim text
            Except.ok ⟨caption, { cache with aiResponses := cache.aiResponses.set cacheKey caption },
              [Effect.generate (captionPrompt tagList)]⟩

/-- The cache key of `generateVibeAnalysis`: the template literal with both conversions. -/
def vibeCacheKey (tags title : JsVal) : Except JsError String :=
  match jsJoin tags "_" with
  | Except.error e => Except.error e
  | Except.ok joined =>
    match title.toStr with
    | Except.error e => Except.error e
    | Except.ok t => Except.ok ("vibe_" ++ joined ++ "_" ++ t)

/-- The prompt template literal of `generateVibeAnalysis` with both conversions. -/
def vibePromptOf (tags title : JsVal) : Except JsError String :=
  match title.toStr with
  | Except.error e => Except.error e
  | Except.ok t =>
    match jsJoin tags ", " with
    | Except.error e => Except.error e
    | Except.ok tagList => Except.ok (vibePrompt t tagList)

/-- The generator `generateVibeAnalysis(tags, title)` (server.js 70-96). -/
def generateVibeAnalysis (cache : Cache) (tags title : JsVal) (svc : GenOutcome)
    (rnd : RandomDraw) : Except JsError GenResult :=
  match vibeCacheKey tags title with
  | Except.error e => Except.error e
  | Except.ok cacheKey =>
    match cache.aiResponses.lookup cacheKey with
    | some cached => Except.ok ⟨cached, cache, []⟩
    | none =>
      match vibePromptOf tags title with
      | Except.error _ =>
          Except.ok ⟨pickFallback vibeFallbacks (by decide) rnd, cache,
            [Effect.logError "Gemini API error:"]⟩
      | Except.ok prompt =>
        match svc with
        | Except.error _ =>
            Except.ok ⟨pickFallback vibeFallbacks (by decide) rnd, cache,
              [Effect.generate prompt, Effect.logError "Gemini API error:"]⟩
        | Except.ok text =>
            let vibe := jsTrim text
            Except.ok ⟨vibe, { cache with aiResponses := cache.aiResponses.set cacheKey vibe },
              [Effect.generate prompt]⟩

/-! ## `GET /api/memes` -/

/-- Handler of `GET /api/memes` (server.js 98-112). -/
def getMemes (cache : Cache) (selectRes : StoreResult (List JsObj)) : Cache × Outcome :=
  match selectRes with
  | Except.error _ =>
      (cache, ⟨[Effect.selectMemes, Effect.logError "Error fetching memes:"],
        errorResponse "Failed to fetch memes"⟩)
  | Except.ok memes =>
      (cache, ⟨[Effect.selectMemes], okResponse (JsVal.arr (memes.map JsVal.obj))⟩)

/-! ## `POST /api/memes` -/

/-- Handler of `POST /api/memes` (server.js 114-147).  `gen1`, `rnd1` serve the caption call,
`gen2`, `rnd2` the vibe call, `now` is the reading of `new Date()`, `insertRes` answers the
insert. -/
def postMemes (cache : Cache) (body : JsObj) (now : Int) (gen1 gen2 : GenOutcome)
    (rnd1 rnd2 : RandomDraw) (insertRes : StoreResult JsObj) : Cache × Outcome :=
  let title := getField body "title"
  let image_url := getField body "image_url"
  let tags := getField body "tags"
  let owner_id := getField body "owner_id"
  let overlay_text := getField body "overlay_text"
  let overlay_position := getField body "overlay_position"
  match generateAICaption cache tags gen1 rnd1 with
  | Except.error _ =>
      (cache, ⟨[Effect.logError "Error creating meme:"], errorResponse "Failed to create meme"⟩)
  | Except.ok r1 =>
    match generateVibeAnalysis r1.cache tags title gen2 rnd2 with
    | Except.error _ =>
        (r1.cache, ⟨r1.trace ++ [Effect.logError "Error creating meme:"],
          errorResponse "Failed to create meme"⟩)
    | Except.ok r2 =>
      let record : MemeRecord :=
        { title := title
          image_url := image_url
          tags := tags
          owner_id := owner_id
          ai_caption := r1.value
          vibe_analysis := r2.value
          upvotes := 0
          created_at := now
          overlay_text := jsOr overlay_text JsVal.null
          overlay_position := jsOr overlay_position (JsVal.str "bottom") }
      match insertRes with
      | Except.error _ =>
          (r2.cache, ⟨r1.trace ++ r2.trace ++
              [Effect.insertMeme record, Effect.logError "Error creating meme:"],
            errorResponse "Failed to create meme"⟩)
      | Except.ok meme =>
          (r2.cache, ⟨r1.trace ++ r2.trace ++
              [Effect.insertMeme record, Effect.emit "new_meme" (JsVal.obj meme)],
            okResponse (JsVal.obj meme)⟩)

/-! ## `POST /api/memes/:id/bid` and `GET /api/memes/:id/bids` -/

/-- An entry of the fixed user table. -/
structure MockUser where
  id : Int
  name : String
  credits : Int

/-- The table `MOCK_USERS` (server.js 35-40). -/
def MOCK_USERS : List (String × MockUser) :=
  [("neon_hacker", ⟨1, "Neon Hacker", 1000⟩),
   ("cyber_punk", ⟨2, "Cyber Punk", 850⟩),
   ("matrix_lord", ⟨3, "Matrix Lord", 1200⟩),
   ("glitch_master", ⟨4, "Glitch Master", 750⟩)]

/-- The expression `Object.values(MOCK_USERS).find(u => u.id === user_id)?.name || 'Anonymous'`. -/
def userNameOf (user_id : JsVal) : String :=
  match (MOCK_USERS.map Prod.snd).find? (fun u => strictEqNum user_id u.id) with
  | some u => if u.name = "" then "Anonymous" else u.name
  | none => "Anonymous"

/-- Handler of `POST /api/memes/:id/bid` (server.js 184-214). -/
def postMemeBid (cache : Cache) (id : String) (body : JsObj) (now : Int)
    (insertRes : StoreResult JsObj) : Cache × Outcome :=
  let user_id := getField body "user_id"
  let credits := getField body "credits"
  let record : BidRecord := ⟨id, user_id, credits, now⟩
  match insertRes with
  | Except.error _ =>
      (cache, ⟨[Effect.insertBid record, Effect.logError "Error placing bid:"],
        errorResponse "Failed to place bid"⟩)
  | Except.ok bid =>
      let userName := userNameOf user_id
      (cache, ⟨[Effect.insertBid record,
          Effect.emit "new_bid"
            (JsVal.obj [("meme_id", JsVal.str id),
              ("bid", JsVal.obj (setField bid "user_name" (JsVal.str userName)))])],
        okResponse (JsVal.obj bid)⟩)

/-- The mapped object `{...bid, user_name: ...}` of the bids listing. -/
def withUserName (bid : JsObj) : JsObj :=
  setField bid "user_name" (JsVal.str (userNameOf (getField bid "user_id")))

/-- Handler of `GET /api/memes/:id/bids` (server.js 216-238). -/
def getMemeBids (cache : Cache) (id : String) (selectRes : StoreResult (List JsObj)) :
    Cache × Outcome :=
  match selectRes with
  | Except.error _ =>
      (cache, ⟨[Effect.selectBids id, Effect.logError "Error fetching bids:"],
        errorResponse "Failed to fetch bids"⟩)
  | Except.ok bids =>
      (cache, ⟨[Effect.selectBids id],
        okResponse (JsVal.arr (bids.map (fun bid => JsVal.obj (withUserName bid))))⟩)

/-! ## `GET /api/leaderboard` -/

/-- Value of a character as a digit of some radix up to 36. -/
def digitValue (c : Char) : Option Nat :=
  let n := c.toNat
  if 48 ≤ n ∧ n ≤ 57 then some (n - 48)
  else if 97 ≤ n ∧ n ≤ 122 then some (n - 87)
  else if 65 ≤ n ∧ n ≤ 90 then some (n - 55)
  else none

/-- The digits of the longest prefix made of digits of the radix. -/
def takeDigits (radix : Nat) : List Char → List Nat
  | [] => []
  | c :: rest =>
    match digitValue c with
    | some d => if d < radix then d :: takeDigits radix rest else []
    | none => []

/-- The function `parseInt(s)` on a string, no radix given: `none` is `NaN`. -/
def parseIntStr (s : String) : Option Int :=
  let trimmed := s.data.dropWhile isJsWhiteSpace
  let signed : Int × List Char :=
    match trimmed with
    | '-' :: t => (-1, t)
    | '+' :: t => (1, t)
    | t => (1, t)
  let based : Nat × List Char :=
    match signed.2 with
    | '0' :: 'x' :: t => (16, t)
    | '0' :: 'X' :: t => (16, t)
    | t => (10, t)
  let digits := takeDigits based.1 based.2
  if digits.isEmpty then none
  else some (signed.1 * (digits.foldl (fun acc d => acc * based.1 + d) 0 : Nat))

/-- The call `parseInt(v)`: the argument is converted with `ToString` first. -/
def jsParseInt (v : JsVal) : Except JsError (Option Int) :=
  match v.toStr with
  | Except.error e => Except.error e
  | Except.ok s => Except.ok (parseIntStr s)

/-- The call `xs.slice(0, end)`: `NaN` counts as 0, a negative end counts from the back. -/
def sliceTo {α : Type} (xs : List α) (stop : Option Int) : List α :=
  let len : Int := xs.length
  let rel : Int := stop.getD 0
  let final : Int := if rel < 0 then max (len + rel) 0 else min rel len
  xs.take final.toNat

/-- The destructuring `const { top = 10 } = req.query`. -/
def topOf (query : JsObj) : JsVal :=
  match getField query "top" with
  | JsVal.undefined => JsVal.num 10
  | v => v

/-- The test `cache.leaderboard && (now - cache.lastLeaderboardUpdate) < 30000`, giving the
cached list when it holds. -/
def freshLeaderboard (cache : Cache) (now : Int) : Option (List JsObj) :=
  match cache.leaderboard with
  | some board => if now - cache.lastLeaderboardUpdate < 30000 then some board else none
  | none => none

/-- Handler of `GET /api/leaderboard` (server.js 240-265).  `now` is the reading of
`Date.now()`, `queryRes` answers the store query if one is issued. -/
def getLeaderboard (cache : Cache) (query : JsObj) (now : Int)
    (queryRes : StoreResult (List JsObj)) : Cache × Outcome :=
  let top := topOf query
  match freshLeaderboard cache now with
  | some board =>
      match jsParseInt top with
      | Except.error _ =>
          (cache, ⟨[Effect.logError "Error fetching leaderboard:"],
            errorResponse "Failed to fetch leaderboard"⟩)
      | Except.ok n =>
          (cache, ⟨[], okResponse (JsVal.arr ((sliceTo board n).map JsVal.obj))⟩)
  | none =>
      match queryRes with
      | Except.error _ =>
          (cache, ⟨[Effect.selectTopMemes 50, Effect.logError "Error fetching leaderboard:"],
            errorResponse "Failed to fetch leaderboard"⟩)
      | Except.ok memes =>
          let cache1 : Cache := { cache with leaderboard := some memes, lastLeaderboardUpdate := now }
          match jsParseInt top with
          | Except.error _ =>
              (cache1, ⟨[Effect.selectTopMemes 50, Effect.logError "Error fetching leaderboard:"],
                errorResponse "Failed to fetch leaderboard"⟩)
          | Except.ok n =>
              (cache1, ⟨[Effect.selectTopMemes 50],
                okResponse (JsVal.arr ((sliceTo memes n).map JsVal.obj))⟩)

/-! ## Sample data -/

/-- Three store rows of memes, by upvotes descending. -/
def sampleMemes : List JsObj :=
  [[("id", JsVal.num 1), ("title", JsVal.str "Doge Rocket"), ("upvotes", JsVal.num 9)],
   [("id", JsVal.num 2), ("title", JsVal.str "Stonks"), ("upvotes", JsVal.num 4)],
   [("id", JsVal.num 3), ("title", JsVal.str "Glitch"), ("upvotes", JsVal.num (-1))]]

/-- A cache whose leaderboard was filled at time 1000. -/
def sampleCache : Cache := ⟨some sampleMemes, 1000, []⟩

/-- Two store rows of bids on meme 7, by credits descending; the second bidder is unknown. -/
def sampleBids : List JsObj :=
  [[("id", JsVal.num 11), ("meme_id", JsVal.str "7"), ("user_id", JsVal.num 2),
    ("credits", JsVal.num 500)],
   [("id", JsVal.num 12), ("meme_id", JsVal.str "7"), ("user_id", JsVal.num 9),
    ("credits", JsVal.num 300)]]

/-- A reading of `Math.random()`: 0.8. -/
def sampleDraw : RandomDraw := ⟨4, 5, by decide⟩

/-- The cache after the caption "Doge hacks the matrix" was generated for the tags
doge, stonks. -/
def cacheAfterDoge : Cache := ⟨none, 0, [("caption_doge_stonks", "Doge hacks the matrix")]⟩

/-- A creation request body with no `tags` field. -/
def bodyNoTags : JsObj :=
  [("title", JsVal.str "Doge Rocket"), ("image_url", JsVal.str "http://x/y.png"),
   ("owner_id", JsVal.num 1)]

/-- A creation request body whose `tags` field is the empty list. -/
def bodyEmptyTags : JsObj :=
  [("title", JsVal.str "Doge Rocket"), ("image_url", JsVal.str "http://x/y.png"),
   ("tags", JsVal.arr []), ("owner_id", JsVal.num 1)]

/-- A meme row as the store returns it after an insert. -/
def sampleMemeRow : JsObj :=
  [("id", JsVal.num 42), ("title", JsVal.str "Doge Rocket"), ("upvotes", JsVal.num 0)]

/-- A creation request body with tags and an overlay position outside top, middle, bottom. -/
def bodySideways : JsObj :=
  [("title", JsVal.str "Doge Rocket"), ("image_url", JsVal.str "http://x/y.png"),
   ("tags", JsVal.arr [JsVal.str "doge", JsVal.str "rocket"]), ("owner_id", JsVal.num 1),
   ("overlay_text", JsVal.str "to the moon"), ("overlay_position", JsVal.str "sideways")]

/-- The end-to-end creation request of the spec: tags doge, rocket, no overlay fields. -/
def bodyDogeRocket : JsObj :=
  [("title", JsVal.str "Doge Rocket"), ("image_url", JsVal.str "http://x/y.png"),
   ("tags", JsVal.arr [JsVal.str "doge", JsVal.str "rocket"]), ("owner_id", JsVal.num 1)]

/-- A bid request body with negative credits. -/
def bodyNegativeBid : JsObj := [("user_id", JsVal.num 2), ("credits", JsVal.num (-5))]

/-- A bid row as the store returns it after an insert. -/
def sampleBidRow : JsObj :=
  [("id", JsVal.num 13), ("meme_id", JsVal.str "7"), ("user_id", JsVal.num 2),
   ("credits", JsVal.num (-5))]

/-! ## Basic facts -/

theorem strictEqStr_iff (v : JsVal) (s : String) : strictEqStr v s = true ↔ v = JsVal.str s := by
  cases v <;> simp [strictEqStr]

theorem getField_cons (f : String × JsVal) (rest : JsObj) (k : String) :
    getField (f :: rest) k = if f.1 == k then f.2 else getField rest k := by
  unfold getField
  rw [List.find?_cons]
  cases f.1 == k <;> rfl

theorem getField_setField_self (o : JsObj) (k : String) (v : JsVal) :
    getField (setField o k v) k = v := by
  induction o with
  | nil => simp [setField, getField_cons]
  | cons f rest ih =>
    cases h : f.1 == k
    · simp [setField, getField_cons, h, ih]
    · simp [setField, getField_cons, h]

theorem getField_setField_ne (o : JsObj) (k j : String) (v : JsVal) (hne : j ≠ k) :
    getField (setField o k v) j = getField o j := by
  have hkj : (k == j) = false := by simpa using Ne.symm hne
  induction o with
  | nil => simp [setField, getField_cons, hkj]
  | cons f rest ih =>
    cases h : f.1 == k
    · simp [setField, getField_cons, h, ih]
    · have hk : f.1 = k := by simpa using h
      have hj : (f.1 == j) = false := by rw [hk]; exact hkj
      simp [setField, getField_cons, h, hj, hkj]

theorem setField_fresh (o : JsObj) (k : String) (v : JsVal) (h : ∀ f ∈ o, f.1 ≠ k) :
    setField o k v = o ++ [(k, v)] := by
  induction o with
  | nil => rfl
  | cons f rest ih =>
    have hf : (f.1 == k) = false := by simpa using h f (List.mem_cons_self _ _)
    simp only [setField, hf, List.cons_append]
    rw [ih (fun g hg => h g (List.mem_cons_of_mem _ hg))]
    simp

theorem sliceTo_natCast {α : Type} (xs : List α) (n : Nat) :
    sliceTo xs (some (n : Int)) = xs.take n := by
  unfold sliceTo
  have h : ¬ ((n : Int) < 0) := by omega
  simp only [Option.getD_some, h, if_false]
  by_cases hn : n ≤ xs.length
  · have : min (n : Int) (xs.length : Int) = (n : Int) := by omega
    rw [this]; simp
  · have : min (n : Int) (xs.length : Int) = (xs.length : Int) := by omega
    rw [this]
    simp only [Int.toNat_ofNat]
    rw [List.take_of_length_le (le_refl _), List.take_of_length_le (by omega)]

theorem roundToDouble_exact (x : Int) (hlo : -(2 ^ 53 : Int) ≤ x) (hhi : x ≤ 2 ^ 53) :
    roundToDouble x = x := by
  have h : x.natAbs ≤ 2 ^ 53 := by omega
  unfold roundToDouble
  simp only []
  rw [if_pos h]

theorem jsAdd_exact (a b : Int) (hlo : -(2 ^ 53 : Int) ≤ a + b) (hhi : a + b ≤ 2 ^ 53) :
    jsAdd a b = a + b :=
  roundToDouble_exact (a + b) hlo hhi

theorem log2_just_above : Nat.log2 9007199254740993 = 53 := by
  have h1 : Nat.log2 9007199254740993 < 54 := (Nat.log2_lt (by decide)).2 (by decide)
  have h2 : ¬ Nat.log2 9007199254740993 < 53 := fun h =>
    absurd ((Nat.log2_lt (by decide)).1 h) (by decide)
  omega

theorem roundToDouble_above : roundToDouble (2 ^ 53 + 1) = 2 ^ 53 := by
  have hm : ((2 : Int) ^ 53 + 1).natAbs = 9007199254740993 := by decide
  unfold roundToDouble
  simp only [hm, log2_just_above]
  decide

theorem roundToDouble_below : roundToDouble (-(2 ^ 53) + -1) = -(2 ^ 53) := by
  have hm : (-(2 : Int) ^ 53 + -1).natAbs = 9007199254740993 := by decide
  unfold roundToDouble
  simp only [hm, log2_just_above]
  decide

/-- Beyond the exact range the vote handler's sum is rounded as a double is: an upvote of a
meme at 2^53 upvotes writes 2^53 back, a downvote at -2^53 writes -2^53. -/
theorem postMemeVote_rounds_outside_exact_range :
    (postMemeVote Cache.init "7" [("vote_type", JsVal.str "up")] (Except.ok (2 ^ 53))
        (Except.error ⟨"unused"⟩)).2.trace.filterMap Effect.writtenUpvotes = [2 ^ 53] ∧
    (postMemeVote Cache.init "7" [("vote_type", JsVal.str "down")] (Except.ok (-(2 ^ 53)))
        (Except.error ⟨"unused"⟩)).2.trace.filterMap Effect.writtenUpvotes = [-(2 ^ 53)] := by
  have hup : (postMemeVote Cache.init "7" [("vote_type", JsVal.str "up")] (Except.ok (2 ^ 53))
      (Except.error ⟨"unused"⟩)).2.trace.filterMap Effect.writtenUpvotes =
      [roundToDouble (2 ^ 53 + 1)] := rfl
  have hdown : (postMemeVote Cache.init "7" [("vote_type", JsVal.str "down")]
      (Except.ok (-(2 ^ 53))) (Except.error ⟨"unused"⟩)).2.trace.filterMap
      Effect.writtenUpvotes = [roundToDouble (-(2 ^ 53) + -1)] := rfl
  rw [hup, hdown, roundToDouble_above, roundToDouble_below]
  exact ⟨rfl, rfl⟩

/-- C1: in the vote handler the value written back is the upvote count read from the store
plus one when `vote_type` is exactly the string "up", and minus one for every other
`vote_type` (another string, another kind of value, or no `vote_type` at all); exactly one
update is issued and no floor is applied.  The count `u` ranges over the integers on which
JavaScript numbers count exactly, those of magnitude below 2^53. -/
theorem postMemeVote_written_upvotes (cache : Cache) (id : String) (body : JsObj) (u : Int)
    (updateRes : StoreResult JsObj) (hlo : -(2 ^ 53 : Int) < u) (hhi : u < 2 ^ 53) :
    (getField body "vote_type" = JsVal.str "up" →
      (postMemeVote cache id body (Except.ok u) updateRes).2.trace.filterMap
        Effect.writtenUpvotes = [u + 1]) ∧
    (getField body "vote_type" ≠ JsVal.str "up" →
      (postMemeVote cache id body (Except.ok u) updateRes).2.trace.filterMap
        Effect.writtenUpvotes = [u - 1]) := by
  have hup : jsAdd u 1 = u + 1 := jsAdd_exact u 1 (by omega) (by omega)
  have hdown : jsAdd u (-1) = u - 1 := by
    rw [jsAdd_exact u (-1) (by omega) (by omega)]; omega
  constructor
  · intro h
    have hb : strictEqStr (getField body "vote_type") "up" = true := (strictEqStr_iff _ _).2 h
    cases updateRes <;> simp [postMemeVote, hb, Effect.writtenUpvotes, hup]
  · intro h
    have hb : strictEqStr (getField body "vote_type") "up" = false := by
      cases hs : strictEqStr (getField body "vote_type") "up"
      · rfl
      · exact absurd ((strictEqStr_iff _ _).1 hs) h
    cases updateRes <;> simp [postMemeVote, hb, Effect.writtenUpvotes, hdown]

/-- Witness of C1: 10 upvotes and "up" write 11; 0 upvotes and "down" write -1; 0 upvotes and
no `vote_type` write -1. -/
theorem postMemeVote_written_upvotes_witness :
    (postMemeVote Cache.init "7" [("vote_type", JsVal.str "up")] (Except.ok 10)
        (Except.ok [("upvotes", JsVal.num 11)])).2.trace.filterMap Effect.writtenUpvotes = [11] ∧
    (postMemeVote Cache.init "7" [("vote_type", JsVal.str "down")] (Except.ok 0)
        (Except.ok [("upvotes", JsVal.num (-1))])).2.trace.filterMap Effect.writtenUpvotes = [-1] ∧
    (postMemeVote Cache.init "7" [("user_id", JsVal.num 1)] (Except.ok 0)
        (Except.ok [("upvotes", JsVal.num (-1))])).2.trace.filterMap Effect.writtenUpvotes = [-1] :=
  ⟨(postMemeVote_written_upvotes Cache.init "7" [("vote_type", JsVal.str "up")] 10
      (Except.ok [("upvotes", JsVal.num 11)]) (by decide) (by decide)).1 rfl,
   (postMemeVote_written_upvotes Cache.init "7" [("vote_type", JsVal.str "down")] 0
      (Except.ok [("upvotes", JsVal.num (-1))]) (by decide) (by decide)).2 (by simp [getField]),
   (postMemeVote_written_upvotes Cache.init "7" [("user_id", JsVal.num 1)] 0
      (Except.ok [("upvotes", JsVal.num (-1))]) (by decide) (by decide)).2 (by simp [getField])⟩

/-- C2: with a cached leaderboard younger than 30000 ms the leaderboard handler answers with
the first `topN` entries of the cached list, issues no store query and leaves the cache as it
is; with no cached list, or one of age 30000 ms or more, it queries the store for the top 50
memes by upvotes, and on the store's answer the cache becomes (that answer, now) and the
response is the first `topN` entries of that answer. -/
theorem getLeaderboard_cache_policy (cache : Cache) (query : JsObj) (now : Int) (topN : Nat)
    (hTop : jsParseInt (topOf query) = Except.ok (some (topN : Int))) :
    (∀ board queryRes, cache.leaderboard = some board →
      now - cache.lastLeaderboardUpdate < 30000 →
      getLeaderboard cache query now queryRes =
        (cache, ⟨[], okResponse (JsVal.arr ((board.take topN).map JsVal.obj))⟩)) ∧
    (∀ memes, (cache.leaderboard = none ∨ 30000 ≤ now - cache.lastLeaderboardUpdate) →
      getLeaderboard cache query now (Except.ok memes) =
        ({ cache with leaderboard := some memes, lastLeaderboardUpdate := now },
          ⟨[Effect.selectTopMemes 50],
            okResponse (JsVal.arr ((memes.take topN).map JsVal.obj))⟩)) := by
  constructor
  · intro board queryRes hb hage
    have hf : freshLeaderboard cache now = some board := by
      simp [freshLeaderboard, hb, hage]
    simp [getLeaderboard, hf, hTop, sliceTo_natCast]
  · intro memes h
    have hf : freshLeaderboard cache now = none := by
      rcases h with h | h
      · simp [freshLeaderboard, h]
      · unfold freshLeaderboard
        cases cache.leaderboard with
        | none => rfl
        | some b => simp only []; rw [if_neg (by omega)]
    simp [getLeaderboard, hf, hTop, sliceTo_natCast]

/-- Witness of C2: a cache filled at time 1000 serves `top=2` at time 30999 without a store
query, and at time 31000 (age exactly 30000 ms) the store is queried and the cache refilled. -/
theorem getLeaderboard_cache_policy_witness :
    getLeaderboard sampleCache [("top", JsVal.str "2")] 30999 (Except.error ⟨"store down"⟩) =
      (sampleCache, ⟨[], okResponse (JsVal.arr ((sampleMemes.take 2).map JsVal.obj))⟩) ∧
    getLeaderboard sampleCache [("top", JsVal.str "2")] 31000 (Except.ok (sampleMemes.drop 1)) =
      ({ sampleCache with leaderboard := some (sampleMemes.drop 1),
                          lastLeaderboardUpdate := 31000 },
        ⟨[Effect.selectTopMemes 50],
          okResponse (JsVal.arr (((sampleMemes.drop 1).take 2).map JsVal.obj))⟩) :=
  ⟨(getLeaderboard_cache_policy sampleCache [("top", JsVal.str "2")] 30999 2 rfl).1
      sampleMemes (Except.error ⟨"store down"⟩) rfl (by decide),
   (getLeaderboard_cache_policy sampleCache [("top", JsVal.str "2")] 31000 2 rfl).2
      (sampleMemes.drop 1) (Or.inr (by decide))⟩

/-- C3: when a leaderboard request at time `t1` queries the store and the query succeeds, a
second request with the same `top` at a time `t2` with `t2 - t1 < 30000` gets the identical
response, issues no store query and leaves the cache as the first request left it, so the
pair issues exactly one store query. -/
theorem getLeaderboard_repeat_within_ttl (cache : Cache) (query : JsObj) (t1 t2 : Int)
    (memes : List JsObj) (res2 : StoreResult (List JsObj))
    (hQuery : (getLeaderboard cache query t1 (Except.ok memes)).2.trace.filter
      Effect.isStoreCall ≠ [])
    (hAge : t2 - t1 < 30000) :
    (getLeaderboard (getLeaderboard cache query t1 (Except.ok memes)).1 query t2 res2).2.response
        = (getLeaderboard cache query t1 (Except.ok memes)).2.response ∧
    (getLeaderboard (getLeaderboard cache query t1 (Except.ok memes)).1 query t2 res2).2.trace.filter
        Effect.isStoreCall = [] ∧
    (getLeaderboard (getLeaderboard cache query t1 (Except.ok memes)).1 query t2 res2).1
        = (getLeaderboard cache query t1 (Except.ok memes)).1 ∧
    (((getLeaderboard cache query t1 (Except.ok memes)).2.trace ++
      (getLeaderboard (getLeaderboard cache query t1 (Except.ok memes)).1 query t2
        res2).2.trace).filter Effect.isStoreCall).length = 1 := by
  cases hf : freshLeaderboard cache t1 with
  | some board =>
    exfalso
    apply hQuery
    cases hp : jsParseInt (topOf query) <;> simp [getLeaderboard, hf, hp, Effect.isStoreCall]
  | none =>
    have hf2 : freshLeaderboard
        { cache with leaderboard := some memes, lastLeaderboardUpdate := t1 } t2 = some memes := by
      simp [freshLeaderboard, hAge]
    cases hp : jsParseInt (topOf query) <;>
      simp [getLeaderboard, hf, hp, hf2, Effect.isStoreCall]

/-- Witness of C3: from the empty cache, `top=5` at time 5000 queries the store, and `top=5`
at time 34999 is served from the cache although the store is down by then. -/
theorem getLeaderboard_repeat_within_ttl_witness :
    (getLeaderboard (getLeaderboard Cache.init [("top", JsVal.str "5")] 5000
        (Except.ok sampleMemes)).1 [("top", JsVal.str "5")] 34999
        (Except.error ⟨"store down"⟩)).2.response
      = (getLeaderboard Cache.init [("top", JsVal.str "5")] 5000
          (Except.ok sampleMemes)).2.response ∧
    (getLeaderboard (getLeaderboard Cache.init [("top", JsVal.str "5")] 5000
        (Except.ok sampleMemes)).1 [("top", JsVal.str "5")] 34999
        (Except.error ⟨"store down"⟩)).2.trace.filter Effect.isStoreCall = [] :=
  ⟨(getLeaderboard_repeat_within_ttl Cache.init [("top", JsVal.str "5")] 5000 34999 sampleMemes
      (Except.error ⟨"store down"⟩) (by simp [getLeaderboard, freshLeaderboard, Cache.init,
        jsParseInt, topOf, getField, JsVal.toStr, Effect.isStoreCall]) (by decide)).1,
   (getLeaderboard_repeat_within_ttl Cache.init [("top", JsVal.str "5")] 5000 34999 sampleMemes
      (Except.error ⟨"store down"⟩) (by simp [getLeaderboard, freshLeaderboard, Cache.init,
        jsParseInt, topOf, getField, JsVal.toStr, Effect.isStoreCall]) (by decide)).2.1⟩

theorem userNameOf_num (n : Int) :
    userNameOf (JsVal.num n) =
      if n = 1 then "Neon Hacker" else if n = 2 then "Cyber Punk"
      else if n = 3 then "Matrix Lord" else if n = 4 then "Glitch Master" else "Anonymous" := by
  by_cases h1 : n = 1
  · subst h1; rfl
  by_cases h2 : n = 2
  · subst h2; rfl
  by_cases h3 : n = 3
  · subst h3; rfl
  by_cases h4 : n = 4
  · subst h4; rfl
  have b1 : (n == 1) = false := by simpa using h1
  have b2 : (n == 2) = false := by simpa using h2
  have b3 : (n == 3) = false := by simpa using h3
  have b4 : (n == 4) = false := by simpa using h4
  simp [userNameOf, MOCK_USERS, strictEqNum, List.find?, h1, h2, h3, h4, b1, b2, b3, b4]

/-- C4: the bids listing answers with the store's bids in the store's order, one element per
bid, each the original bid with the field `user_name` set (appended when the bid has no such
field, all other fields untouched, so the `credits` order is the store's order); the name is
the name of the `MOCK_USERS` entry whose id is the bid's `user_id`, and "Anonymous" when no
entry has that id. -/
theorem getMemeBids_augments (cache : Cache) (id : String) (bids : List JsObj) :
    (∃ out : List JsObj,
      getMemeBids cache id (Except.ok bids) =
        (cache, ⟨[Effect.selectBids id], okResponse (JsVal.arr (out.map JsVal.obj))⟩) ∧
      out.length = bids.length ∧
      out = bids.map (fun bid =>
        setField bid "user_name" (JsVal.str (userNameOf (getField bid "user_id")))) ∧
      out.map (fun bid => getField bid "credits") = bids.map (fun bid => getField bid "credits") ∧
      (∀ i (h : i < bids.length) (h2 : i < out.length),
        getField (out.get ⟨i, h2⟩) "user_name" =
          JsVal.str (userNameOf (getField (bids.get ⟨i, h⟩) "user_id")) ∧
        (∀ k, k ≠ "user_name" →
          getField (out.get ⟨i, h2⟩) k = getField (bids.get ⟨i, h⟩) k) ∧
        ((∀ f ∈ bids.get ⟨i, h⟩, f.1 ≠ "user_name") →
          out.get ⟨i, h2⟩ = bids.get ⟨i, h⟩ ++
            [("user_name", JsVal.str (userNameOf (getField (bids.get ⟨i, h⟩) "user_id")))]))) ∧
    userNameOf (JsVal.num 1) = "Neon Hacker" ∧
    userNameOf (JsVal.num 2) = "Cyber Punk" ∧
    userNameOf (JsVal.num 3) = "Matrix Lord" ∧
    userNameOf (JsVal.num 4) = "Glitch Master" ∧
    (∀ key u, (key, u) ∈ MOCK_USERS → userNameOf (JsVal.num u.id) = u.name) ∧
    (∀ v, (∀ key u, (key, u) ∈ MOCK_USERS → v ≠ JsVal.num u.id) →
      userNameOf v = "Anonymous") := by
  refine ⟨⟨bids.map withUserName, ?_, by simp, rfl, ?_, ?_⟩, rfl, rfl, rfl, rfl, ?_, ?_⟩
  · simp [getMemeBids, List.map_map, Function.comp_def]
  · rw [List.map_map]
    apply List.map_congr_left
    intro bid _
    exact getField_setField_ne bid "user_name" "credits" _ (by decide)
  · intro i h h2
    have hget : (bids.map withUserName).get ⟨i, h2⟩ = withUserName (bids.get ⟨i, h⟩) := by
      simp
    rw [hget]
    refine ⟨getField_setField_self _ _ _, ?_, ?_⟩
    · intro k hk
      exact getField_setField_ne _ _ _ _ hk
    · intro hfresh
      exact setField_fresh _ _ _ hfresh
  · intro key u hu
    simp only [MOCK_USERS, List.mem_cons, Prod.mk.injEq, List.mem_singleton, List.not_mem_nil,
      or_false] at hu
    rcases hu with ⟨_, rfl⟩ | ⟨_, rfl⟩ | ⟨_, rfl⟩ | ⟨_, rfl⟩ <;> rfl
  · intro v hv
    cases v with
    | num n =>
      rw [userNameOf_num]
      have h1 : n ≠ 1 := fun e => hv "neon_hacker" ⟨1, "Neon Hacker", 1000⟩
        (by simp [MOCK_USERS]) (by rw [e])
      have h2 : n ≠ 2 := fun e => hv "cyber_punk" ⟨2, "Cyber Punk", 850⟩
        (by simp [MOCK_USERS]) (by rw [e])
      have h3 : n ≠ 3 := fun e => hv "matrix_lord" ⟨3, "Matrix Lord", 1200⟩
        (by simp [MOCK_USERS]) (by rw [e])
      have h4 : n ≠ 4 := fun e => hv "glitch_master" ⟨4, "Glitch Master", 750⟩
        (by simp [MOCK_USERS]) (by rw [e])
      simp [h1, h2, h3, h4]
    | _ => rfl

/-- Witness of C4: two bids on meme 7, by users 2 and 9, come back in the same order with
`user_name` "Cyber Punk" and "Anonymous" appended. -/
theorem getMemeBids_augments_witness :
    getMemeBids Cache.init "7" (Except.ok sampleBids) =
      (Cache.init, ⟨[Effect.selectBids "7"], okResponse (JsVal.arr
        [JsVal.obj [("id", JsVal.num 11), ("meme_id", JsVal.str "7"), ("user_id", JsVal.num 2),
            ("credits", JsVal.num 500), ("user_name", JsVal.str "Cyber Punk")],
         JsVal.obj [("id", JsVal.num 12), ("meme_id", JsVal.str "7"), ("user_id", JsVal.num 9),
            ("credits", JsVal.num 300), ("user_name", JsVal.str "Anonymous")]])⟩) := by
  obtain ⟨out, hres, _, hout, _⟩ := (getMemeBids_augments Cache.init "7" sampleBids).1
  rw [hres, hout]
  rfl

theorem intercalate_go_append (sep : String) (rest : List String) (acc a : String) :
    String.intercalate.go (acc ++ a) sep rest = acc ++ String.intercalate.go a sep rest := by
  induction rest generalizing a with
  | nil => simp [String.intercalate.go]
  | cons b bs ih =>
    simp only [String.intercalate.go]
    rw [← ih (a ++ sep ++ b)]
    simp [String.append_assoc]

theorem joinItems_strs (sep : String) (tags : List String) :
    JsVal.joinItems sep (tags.map JsVal.str) = Except.ok (String.intercalate sep tags) := by
  induction tags with
  | nil => rfl
  | cons a rest ih =>
    cases rest with
    | nil => simp [JsVal.joinItems, JsVal.itemStr, String.intercalate, String.intercalate.go]
    | cons b bs =>
      simp only [List.map] at ih ⊢
      simp only [JsVal.joinItems, JsVal.itemStr, ih]
      simp only [String.intercalate, String.intercalate.go]
      rw [intercalate_go_append]

theorem jsJoin_tagsVal (sep : String) (tags : List String) :
    jsJoin (tagsVal tags) sep = Except.ok (String.intercalate sep tags) := by
  simp [jsJoin, tagsVal, joinItems_strs]

theorem lookup_set_self (m : Memo) (k v : String) : (Memo.set m k v).lookup k = some v := by
  induction m with
  | nil => simp [Memo.set, List.lookup]
  | cons e rest ih =>
    obtain ⟨ek, ev⟩ := e
    by_cases h : ek = k
    · subst h; simp [Memo.set, List.lookup]
    · have h1 : (ek == k) = false := by simpa using h
      have h2 : (k == ek) = false := by simpa using Ne.symm h
      simp [Memo.set, List.lookup, h1, h2, ih]

theorem pickFallback_mem (fallbacks : List String) (h : 0 < fallbacks.length) (r : RandomDraw) :
    pickFallback fallbacks h r ∈ fallbacks := by
  unfold pickFallback
  exact List.get_mem _ _ _

theorem generateAICaption_hit (cache : Cache) (tags : List String) (svc : GenOutcome)
    (rnd : RandomDraw) (v : String)
    (h : cache.aiResponses.lookup ("caption_" ++ String.intercalate "_" tags) = some v) :
    generateAICaption cache (tagsVal tags) svc rnd = Except.ok ⟨v, cache, []⟩ := by
  simp [generateAICaption, jsJoin_tagsVal, h]

theorem generateAICaption_miss_ok (cache : Cache) (tags : List String) (text : String)
    (rnd : RandomDraw)
    (h : cache.aiResponses.lookup ("caption_" ++ String.intercalate "_" tags) = none) :
    generateAICaption cache (tagsVal tags) (Except.ok text) rnd =
      Except.ok ⟨jsTrim text,
        { cache with aiResponses :=
            cache.aiResponses.set ("caption_" ++ String.intercalate "_" tags) (jsTrim text) },
        [Effect.generate (captionPrompt (String.intercalate ", " tags))]⟩ := by
  simp [generateAICaption, jsJoin_tagsVal, h]

theorem generateAICaption_miss_error (cache : Cache) (tags : List String) (e : JsError)
    (rnd : RandomDraw)
    (h : cache.aiResponses.lookup ("caption_" ++ String.intercalate "_" tags) = none) :
    generateAICaption cache (tagsVal tags) (Except.error e) rnd =
      Except.ok ⟨pickFallback captionFallbacks (by decide) rnd, cache,
        [Effect.generate (captionPrompt (String.intercalate ", " tags)),
         Effect.logError "Gemini API error:"]⟩ := by
  simp [generateAICaption, jsJoin_tagsVal, h]

/-- C5: after a call of `generateAICaption(tags)` that was answered by the generation
service, a second call with the same tag list returns the same caption, the trimmed text of
the service, and issues no external request, so that the two calls issue exactly one. -/
theorem generateAICaption_second_call_cached (cache : Cache) (tags : List String)
    (text : String) (svc2 : GenOutcome) (rnd1 rnd2 : RandomDraw) :
    ∃ r1 r2,
      generateAICaption cache (tagsVal tags) (Except.ok text) rnd1 = Except.ok r1 ∧
      generateAICaption r1.cache (tagsVal tags) svc2 rnd2 = Except.ok r2 ∧
      r2.value = r1.value ∧
      r2.trace.filter Effect.isGenerate = [] ∧
      (r1.trace.filter Effect.isGenerate ≠ [] →
        r1.value = jsTrim text ∧
        ((r1.trace ++ r2.trace).filter Effect.isGenerate).length = 1) := by
  cases h : cache.aiResponses.lookup ("caption_" ++ String.intercalate "_" tags) with
  | some v =>
    refine ⟨⟨v, cache, []⟩, ⟨v, cache, []⟩, generateAICaption_hit _ _ _ _ _ h,
      generateAICaption_hit _ _ _ _ _ h, rfl, rfl, ?_⟩
    intro hne
    exact absurd rfl hne
  | none =>
    refine ⟨_, ⟨jsTrim text, _, []⟩, generateAICaption_miss_ok _ _ _ _ h,
      generateAICaption_hit _ _ _ _ _ (lookup_set_self _ _ _), rfl, rfl, ?_⟩
    intro _
    exact ⟨rfl, by simp [Effect.isGenerate]⟩

/-- Witness of C5: tags doge, stonks with the service answering "Doge hacks the matrix";
the second call returns that caption although the service is unreachable by then. -/
theorem generateAICaption_second_call_cached_witness :
    ∃ r1 r2,
      generateAICaption Cache.init (tagsVal ["doge", "stonks"])
        (Except.ok "Doge hacks the matrix") sampleDraw = Except.ok r1 ∧
      generateAICaption r1.cache (tagsVal ["doge", "stonks"])
        (Except.error ⟨"service unreachable"⟩) sampleDraw = Except.ok r2 ∧
      r1.value = "Doge hacks the matrix" ∧ r2.value = "Doge hacks the matrix" ∧
      r2.trace.filter Effect.isGenerate = [] ∧
      ((r1.trace ++ r2.trace).filter Effect.isGenerate).length = 1 := by
  obtain ⟨r1, r2, h1, h2, hv, hg, himp⟩ :=
    generateAICaption_second_call_cached Cache.init ["doge", "stonks"] "Doge hacks the matrix"
      (Except.error ⟨"service unreachable"⟩) sampleDraw sampleDraw
  have hfirst : generateAICaption Cache.init (tagsVal ["doge", "stonks"])
      (Except.ok "Doge hacks the matrix") sampleDraw =
      Except.ok ⟨"Doge hacks the matrix", cacheAfterDoge,
        [Effect.generate (captionPrompt "doge, stonks")]⟩ := rfl
  have hr1 : r1 = ⟨"Doge hacks the matrix", cacheAfterDoge,
      [Effect.generate (captionPrompt "doge, stonks")]⟩ := by
    rw [hfirst] at h1
    exact (Except.ok.inj h1).symm
  have hreq : r1.trace.filter Effect.isGenerate ≠ [] := by
    rw [hr1]; simp [Effect.isGenerate]
  refine ⟨r1, r2, h1, h2, ?_, ?_, hg, (himp hreq).2⟩
  · rw [hr1]
  · rw [hv, hr1]

theorem vibeCacheKey_tagsVal (tags : List String) (title : JsVal) (t : String)
    (ht : title.toStr = Except.ok t) :
    vibeCacheKey (tagsVal tags) title =
      Except.ok ("vibe_" ++ String.intercalate "_" tags ++ "_" ++ t) := by
  simp [vibeCacheKey, jsJoin_tagsVal, ht]

theorem vibePromptOf_tagsVal (tags : List String) (title : JsVal) (t : String)
    (ht : title.toStr = Except.ok t) :
    vibePromptOf (tagsVal tags) title =
      Except.ok (vibePrompt t (String.intercalate ", " tags)) := by
  simp [vibePromptOf, jsJoin_tagsVal, ht]

theorem generateVibeAnalysis_hit (cache : Cache) (tags : List String) (title : JsVal)
    (t : String) (svc : GenOutcome) (rnd : RandomDraw) (v : String)
    (ht : title.toStr = Except.ok t)
    (h : cache.aiResponses.lookup ("vibe_" ++ String.intercalate "_" tags ++ "_" ++ t) = some v) :
    generateVibeAnalysis cache (tagsVal tags) title svc rnd = Except.ok ⟨v, cache, []⟩ := by
  simp [generateVibeAnalysis, vibeCacheKey_tagsVal tags title t ht, h]

theorem generateVibeAnalysis_miss_ok (cache : Cache) (tags : List String) (title : JsVal)
    (t text : String) (rnd : RandomDraw) (ht : title.toStr = Except.ok t)
    (h : cache.aiResponses.lookup ("vibe_" ++ String.intercalate "_" tags ++ "_" ++ t) = none) :
    generateVibeAnalysis cache (tagsVal tags) title (Except.ok text) rnd =
      Except.ok ⟨jsTrim text,
        { cache with aiResponses :=
            (cache.aiResponses.set ("vibe_" ++ String.intercalate "_" tags ++ "_" ++ t)
              (jsTrim text)) },
        [Effect.generate (vibePrompt t (String.intercalate ", " tags))]⟩ := by
  simp [generateVibeAnalysis, vibeCacheKey_tagsVal tags title t ht,
    vibePromptOf_tagsVal tags title t ht, h]

theorem generateVibeAnalysis_miss_error (cache : Cache) (tags : List String) (title : JsVal)
    (t : String) (e : JsError) (rnd : RandomDraw) (ht : title.toStr = Except.ok t)
    (h : cache.aiResponses.lookup ("vibe_" ++ String.intercalate "_" tags ++ "_" ++ t) = none) :
    generateVibeAnalysis cache (tagsVal tags) title (Except.error e) rnd =
      Except.ok ⟨pickFallback vibeFallbacks (by decide) rnd, cache,
        [Effect.generate (vibePrompt t (String.intercalate ", " tags)),
         Effect.logError "Gemini API error:"]⟩ := by
  simp [generateVibeAnalysis, vibeCacheKey_tagsVal tags title t ht,
    vibePromptOf_tagsVal tags title t ht, h]

/-- C6: when the cache key of the inputs is not in the memo cache and the external generation
call fails, `generateAICaption` and `generateVibeAnalysis` return an element of their
fallback list (5 phrases each) and leave the cache unchanged, so that the next call with the
same inputs issues the external generation request again. -/
theorem generators_fallback_not_cached (cache : Cache) (tags : List String) (title : JsVal)
    (t : String) (e : JsError) (rnd : RandomDraw) :
    captionFallbacks.length = 5 ∧ vibeFallbacks.length = 5 ∧
    (cache.aiResponses.lookup ("caption_" ++ String.intercalate "_" tags) = none →
      ∃ r, generateAICaption cache (tagsVal tags) (Except.error e) rnd = Except.ok r ∧
        r.value ∈ captionFallbacks ∧ r.cache = cache ∧
        r.trace.filter Effect.isGenerate =
          [Effect.generate (captionPrompt (String.intercalate ", " tags))] ∧
        ∀ svc2 rnd2, ∃ r2,
          generateAICaption r.cache (tagsVal tags) svc2 rnd2 = Except.ok r2 ∧
          r2.trace.filter Effect.isGenerate =
            [Effect.generate (captionPrompt (String.intercalate ", " tags))]) ∧
    (title.toStr = Except.ok t →
      cache.aiResponses.lookup ("vibe_" ++ String.intercalate "_" tags ++ "_" ++ t) = none →
      ∃ r, generateVibeAnalysis cache (tagsVal tags) title (Except.error e) rnd = Except.ok r ∧
        r.value ∈ vibeFallbacks ∧ r.cache = cache ∧
        r.trace.filter Effect.isGenerate =
          [Effect.generate (vibePrompt t (String.intercalate ", " tags))] ∧
        ∀ svc2 rnd2, ∃ r2,
          generateVibeAnalysis r.cache (tagsVal tags) title svc2 rnd2 = Except.ok r2 ∧
          r2.trace.filter Effect.isGenerate =
            [Effect.generate (vibePrompt t (String.intercalate ", " tags))]) := by
  refine ⟨rfl, rfl, ?_, ?_⟩
  · intro h
    refine ⟨_, generateAICaption_miss_error cache tags e rnd h, pickFallback_mem _ (by decide) _, rfl,
      by simp [Effect.isGenerate], ?_⟩
    intro svc2 rnd2
    cases svc2 with
    | error e2 =>
      exact ⟨_, generateAICaption_miss_error cache tags e2 rnd2 h, by simp [Effect.isGenerate]⟩
    | ok text =>
      exact ⟨_, generateAICaption_miss_ok cache tags text rnd2 h, by simp [Effect.isGenerate]⟩
  · intro ht h
    refine ⟨_, generateVibeAnalysis_miss_error cache tags title t e rnd ht h,
      pickFallback_mem _ (by decide) _, rfl, by simp [Effect.isGenerate], ?_⟩
    intro svc2 rnd2
    cases svc2 with
    | error e2 =>
      exact ⟨_, generateVibeAnalysis_miss_error cache tags title t e2 rnd2 ht h,
        by simp [Effect.isGenerate]⟩
    | ok text =>
      exact ⟨_, generateVibeAnalysis_miss_ok cache tags title t text rnd2 ht h,
        by simp [Effect.isGenerate]⟩

/-- Witness of C6: from the empty cache with the service unreachable, tags doge, stonks and
title "Doge Rocket" get a fallback phrase from each generator and the cache stays empty. -/
theorem generators_fallback_not_cached_witness :
    (∃ r, generateAICaption Cache.init (tagsVal ["doge", "stonks"])
        (Except.error ⟨"service unreachable"⟩) sampleDraw = Except.ok r ∧
      r.value ∈ captionFallbacks ∧ r.cache = Cache.init) ∧
    (∃ r, generateVibeAnalysis Cache.init (tagsVal ["doge", "stonks"]) (JsVal.str "Doge Rocket")
        (Except.error ⟨"service unreachable"⟩) sampleDraw = Except.ok r ∧
      r.value ∈ vibeFallbacks ∧ r.cache = Cache.init) := by
  have h := generators_fallback_not_cached Cache.init ["doge", "stonks"]
    (JsVal.str "Doge Rocket") "Doge Rocket" ⟨"service unreachable"⟩ sampleDraw
  obtain ⟨r, hr, hm, hc, _⟩ := h.2.2.1 rfl
  obtain ⟨r2, hr2, hm2, hc2, _⟩ := h.2.2.2 rfl rfl
  exact ⟨⟨r, hr, hm, hc⟩, ⟨r2, hr2, hm2, hc2⟩⟩

/-- Counterexample to C7 as stated: after the caption "Doge hacks the matrix" was generated
for the tags doge, stonks, a call for the same tags while the service is unreachable returns
that cached caption, which is not a fallback phrase. -/
theorem generateAICaption_unreachable_returns_cached :
    generateAICaption Cache.init (tagsVal ["doge", "stonks"])
        (Except.ok "Doge hacks the matrix") sampleDraw =
      Except.ok ⟨"Doge hacks the matrix", cacheAfterDoge,
        [Effect.generate (captionPrompt "doge, stonks")]⟩ ∧
    generateAICaption cacheAfterDoge (tagsVal ["doge", "stonks"])
        (Except.error ⟨"service unreachable"⟩) sampleDraw =
      Except.ok ⟨"Doge hacks the matrix", cacheAfterDoge, []⟩ ∧
    "Doge hacks the matrix" ∉ captionFallbacks := by
  refine ⟨rfl, rfl, ?_⟩
  decide

/-- C7 amended: for every tag list `generateAICaption` returns and never throws, whatever
the service answers; with the generation service unreachable it returns a non-empty phrase
of the fallback list when the cache key of the tags is not in the memo cache, and when the
key is in the memo cache it returns the cached caption without contacting the service (its
trace is empty and the cache stays as it was). -/
theorem generateAICaption_unreachable (cache : Cache) (tags : List String) (e : JsError)
    (rnd : RandomDraw) :
    (∀ svc rnd2, ∃ r, generateAICaption cache (tagsVal tags) svc rnd2 = Except.ok r) ∧
    ∃ r, generateAICaption cache (tagsVal tags) (Except.error e) rnd = Except.ok r ∧
      (cache.aiResponses.lookup ("caption_" ++ String.intercalate "_" tags) = none →
        r.value ∈ captionFallbacks ∧ r.value ≠ "") ∧
      (∀ v, cache.aiResponses.lookup ("caption_" ++ String.intercalate "_" tags) = some v →
        r.value = v ∧ r.trace = [] ∧ r.cache = cache) := by
  refine ⟨?_, ?_⟩
  · intro svc rnd2
    cases h : cache.aiResponses.lookup ("caption_" ++ String.intercalate "_" tags) with
    | some v => exact ⟨_, generateAICaption_hit _ _ _ _ _ h⟩
    | none =>
      cases svc with
      | error e2 => exact ⟨_, generateAICaption_miss_error _ _ _ _ h⟩
      | ok text => exact ⟨_, generateAICaption_miss_ok _ _ _ _ h⟩
  cases h : cache.aiResponses.lookup ("caption_" ++ String.intercalate "_" tags) with
  | some v =>
    refine ⟨_, generateAICaption_hit _ _ _ _ _ h, ?_, ?_⟩
    · intro hn; cases hn
    · intro w hw; cases hw; exact ⟨rfl, rfl, rfl⟩
  | none =>
    refine ⟨_, generateAICaption_miss_error _ _ _ _ h, ?_, ?_⟩
    · intro _
      have hm := pickFallback_mem captionFallbacks (by decide) rnd
      refine ⟨hm, ?_⟩
      intro hempty
      have hempty2 : pickFallback captionFallbacks (by decide) rnd = "" := hempty
      rw [hempty2] at hm
      revert hm
      decide
    · intro v hv; cases hv

/-- Witness of C7 amended: with the service unreachable, the tags doge, stonks get a
non-empty fallback phrase from the empty cache, and the cached caption with an empty trace
from the cache that holds their caption. -/
theorem generateAICaption_unreachable_witness :
    (∃ r, generateAICaption Cache.init (tagsVal ["doge", "stonks"])
        (Except.error ⟨"service unreachable"⟩) sampleDraw = Except.ok r ∧
      r.value ∈ captionFallbacks ∧ r.value ≠ "") ∧
    (∃ r, generateAICaption cacheAfterDoge (tagsVal ["doge", "stonks"])
        (Except.error ⟨"service unreachable"⟩) sampleDraw = Except.ok r ∧
      r.value = "Doge hacks the matrix" ∧ r.trace = [] ∧ r.cache = cacheAfterDoge) := by
  obtain ⟨r, hr, hmiss, _⟩ := (generateAICaption_unreachable Cache.init ["doge", "stonks"]
    ⟨"service unreachable"⟩ sampleDraw).2
  obtain ⟨r2, hr2, _, hhit⟩ := (generateAICaption_unreachable cacheAfterDoge ["doge", "stonks"]
    ⟨"service unreachable"⟩ sampleDraw).2
  exact ⟨⟨r, hr, hmiss rfl⟩, ⟨r2, hr2, hhit "Doge hacks the matrix" rfl⟩⟩

theorem generateAICaption_trace (cache : Cache) (tags : JsVal) (svc : GenOutcome)
    (rnd : RandomDraw) (r : GenResult) (h : generateAICaption cache tags svc rnd = Except.ok r) :
    r.trace.filter Effect.isStoreCall = [] ∧ r.trace.filter Effect.isEmit = [] := by
  cases hj : jsJoin tags "_" with
  | error e => simp [generateAICaption, hj] at h
  | ok joined =>
    cases hl : cache.aiResponses.lookup ("caption_" ++ joined) with
    | some v =>
      simp only [generateAICaption, hj, hl, Except.ok.injEq] at h
      subst h; exact ⟨rfl, rfl⟩
    | none =>
      cases hj2 : jsJoin tags ", " with
      | error e =>
        simp only [generateAICaption, hj, hl, hj2, Except.ok.injEq] at h
        subst h; exact ⟨rfl, rfl⟩
      | ok tagList =>
        cases svc with
        | error e =>
          simp only [generateAICaption, hj, hl, hj2, Except.ok.injEq] at h
          subst h; exact ⟨rfl, rfl⟩
        | ok text =>
          simp only [generateAICaption, hj, hl, hj2, Except.ok.injEq] at h
          subst h; exact ⟨rfl, rfl⟩

theorem generateVibeAnalysis_trace (cache : Cache) (tags title : JsVal) (svc : GenOutcome)
    (rnd : RandomDraw) (r : GenResult)
    (h : generateVibeAnalysis cache tags title svc rnd = Except.ok r) :
    r.trace.filter Effect.isStoreCall = [] ∧ r.trace.filter Effect.isEmit = [] := by
  cases hj : vibeCacheKey tags title with
  | error e => simp [generateVibeAnalysis, hj] at h
  | ok key =>
    cases hl : cache.aiResponses.lookup key with
    | some v =>
      simp only [generateVibeAnalysis, hj, hl, Except.ok.injEq] at h
      subst h; exact ⟨rfl, rfl⟩
    | none =>
      cases hj2 : vibePromptOf tags title with
      | error e =>
        simp only [generateVibeAnalysis, hj, hl, hj2, Except.ok.injEq] at h
        subst h; exact ⟨rfl, rfl⟩
      | ok prompt =>
        cases svc with
        | error e =>
          simp only [generateVibeAnalysis, hj, hl, hj2, Except.ok.injEq] at h
          subst h; exact ⟨rfl, rfl⟩
        | ok text =>
          simp only [generateVibeAnalysis, hj, hl, hj2, Except.ok.injEq] at h
          subst h; exact ⟨rfl, rfl⟩

theorem generateAICaption_total (cache : Cache) (tags : List String) (svc : GenOutcome)
    (rnd : RandomDraw) : ∃ r, generateAICaption cache (tagsVal tags) svc rnd = Except.ok r := by
  cases h : cache.aiResponses.lookup ("caption_" ++ String.intercalate "_" tags) with
  | some v => exact ⟨_, generateAICaption_hit _ _ _ _ _ h⟩
  | none =>
    cases svc with
    | error e => exact ⟨_, generateAICaption_miss_error _ _ _ _ h⟩
    | ok text => exact ⟨_, generateAICaption_miss_ok _ _ _ _ h⟩

theorem generateVibeAnalysis_total (cache : Cache) (tags : List String) (title : JsVal)
    (t : String) (svc : GenOutcome) (rnd : RandomDraw) (ht : title.toStr = Except.ok t) :
    ∃ r, generateVibeAnalysis cache (tagsVal tags) title svc rnd = Except.ok r := by
  cases h : cache.aiResponses.lookup
      ("vibe_" ++ String.intercalate "_" tags ++ "_" ++ t) with
  | some v => exact ⟨_, generateVibeAnalysis_hit _ _ _ _ _ _ _ ht h⟩
  | none =>
    cases svc with
    | error e => exact ⟨_, generateVibeAnalysis_miss_error _ _ _ _ _ _ ht h⟩
    | ok text => exact ⟨_, generateVibeAnalysis_miss_ok _ _ _ _ _ _ ht h⟩

/-- Counterexample to C8 as stated: a creation request with title, image and owner but no
`tags` field is answered with status 500; nothing is inserted and nothing is broadcast,
although the generation service and the store would both have answered. -/
theorem postMemes_without_tags_answers_500 :
    postMemes Cache.init bodyNoTags 1000 (Except.ok "Doge hacks the matrix")
        (Except.ok "Neon Crypto Chaos") sampleDraw sampleDraw (Except.ok sampleMemeRow) =
      (Cache.init, ⟨[Effect.logError "Error creating meme:"],
        ⟨500, JsVal.obj [("error", JsVal.str "Failed to create meme")]⟩⟩) := by
  rfl

/-- C8 amended: a creation request whose body has no `tags` field does not proceed: the
handler answers 500 with the body `{error: 'Failed to create meme'}`, inserts nothing,
broadcasts nothing and leaves the cache unchanged.  A request whose `tags` field is the
empty list (and whose title converts to text) does proceed: one meme record with the empty
tag list is handed to the store, and when the store answers with the created meme that meme
is broadcast and returned. -/
theorem postMemes_tags_absent_or_empty (cache : Cache) (body : JsObj) (now : Int)
    (gen1 gen2 : GenOutcome) (rnd1 rnd2 : RandomDraw) (insertRes : StoreResult JsObj) :
    (getField body "tags" = JsVal.undefined →
      postMemes cache body now gen1 gen2 rnd1 rnd2 insertRes =
        (cache, ⟨[Effect.logError "Error creating meme:"],
          ⟨500, JsVal.obj [("error", JsVal.str "Failed to create meme")]⟩⟩)) ∧
    (getField body "tags" = JsVal.arr [] →
      ∀ t meme, (getField body "title").toStr = Except.ok t → insertRes = Except.ok meme →
        ∃ record : MemeRecord, record.tags = JsVal.arr [] ∧
          (postMemes cache body now gen1 gen2 rnd1 rnd2 insertRes).2.trace.filter
            Effect.isStoreCall = [Effect.insertMeme record] ∧
          (postMemes cache body now gen1 gen2 rnd1 rnd2 insertRes).2.trace.filter
            Effect.isEmit = [Effect.emit "new_meme" (JsVal.obj meme)] ∧
          (postMemes cache body now gen1 gen2 rnd1 rnd2 insertRes).2.response =
            ⟨200, JsVal.obj meme⟩) := by
  constructor
  · intro h
    simp [postMemes, h, generateAICaption, jsJoin, errorResponse]
  · intro h t meme ht hins
    obtain ⟨r1, hr1⟩ := generateAICaption_total cache [] gen1 rnd1
    obtain ⟨r2, hr2⟩ := generateVibeAnalysis_total r1.cache [] (getField body "title") t gen2
      rnd2 ht
    have hr1' : generateAICaption cache (JsVal.arr []) gen1 rnd1 = Except.ok r1 := hr1
    have hr2' : generateVibeAnalysis r1.cache (JsVal.arr []) (getField body "title") gen2 rnd2 =
        Except.ok r2 := hr2
    obtain ⟨s1, e1⟩ := generateAICaption_trace _ _ _ _ _ hr1'
    obtain ⟨s2, e2⟩ := generateVibeAnalysis_trace _ _ _ _ _ _ hr2'
    refine ⟨⟨getField body "title", getField body "image_url", JsVal.arr [],
      getField body "owner_id", r1.value, r2.value, 0, now,
      jsOr (getField body "overlay_text") JsVal.null,
      jsOr (getField body "overlay_position") (JsVal.str "bottom")⟩, rfl, ?_, ?_, ?_⟩
    · simp only [postMemes, h, hr1', hr2', hins, List.filter_append, s1, s2]
      rfl
    · simp only [postMemes, h, hr1', hr2', hins, List.filter_append, e1, e2]
      rfl
    · simp only [postMemes, h, hr1', hr2', hins]
      rfl

/-- Witness of C8 amended: the body without `tags` is answered with 500, and the body with
`tags: []` has its meme inserted and returned. -/
theorem postMemes_tags_absent_or_empty_witness :
    postMemes Cache.init bodyNoTags 1000 (Except.ok "Doge hacks the matrix")
        (Except.ok "Neon Crypto Chaos") sampleDraw sampleDraw (Except.ok sampleMemeRow) =
      (Cache.init, ⟨[Effect.logError "Error creating meme:"],
        ⟨500, JsVal.obj [("error", JsVal.str "Failed to create meme")]⟩⟩) ∧
    (postMemes Cache.init bodyEmptyTags 1000 (Except.ok "Doge hacks the matrix")
        (Except.ok "Neon Crypto Chaos") sampleDraw sampleDraw
        (Except.ok sampleMemeRow)).2.response = ⟨200, JsVal.obj sampleMemeRow⟩ := by
  have h := postMemes_tags_absent_or_empty Cache.init
  refine ⟨(h bodyNoTags 1000 (Except.ok "Doge hacks the matrix") (Except.ok "Neon Crypto Chaos")
    sampleDraw sampleDraw (Except.ok sampleMemeRow)).1 rfl, ?_⟩
  obtain ⟨_, _, _, _, hresp⟩ :=
    (h bodyEmptyTags 1000 (Except.ok "Doge hacks the matrix") (Except.ok "Neon Crypto Chaos")
      sampleDraw sampleDraw (Except.ok sampleMemeRow)).2 rfl "Doge Rocket" sampleMemeRow rfl rfl
  exact hresp

/-- C9: when a store call of a mutating handler returns an error, the handler broadcasts no
event, issues no further store call (no retry, no further write) and answers with status 500
and the body `{error: <fixed message>}`.  In the create handler this is the failed insert, in
the bid handler the failed insert, in the vote handler either the failed read of the current
upvotes, after which the update is never issued, or the failed update. -/
theorem store_error_answers_500_without_event (cache : Cache) (id : String) (body : JsObj)
    (now : Int) (gen1 gen2 : GenOutcome) (rnd1 rnd2 : RandomDraw) (e : StoreError) (u : Int) :
    ((postMemes cache body now gen1 gen2 rnd1 rnd2 (Except.error e)).2.response =
        ⟨500, JsVal.obj [("error", JsVal.str "Failed to create meme")]⟩ ∧
      (postMemes cache body now gen1 gen2 rnd1 rnd2 (Except.error e)).2.trace.filter
        Effect.isEmit = [] ∧
      ((postMemes cache body now gen1 gen2 rnd1 rnd2 (Except.error e)).2.trace.filter
        Effect.isStoreCall).length ≤ 1) ∧
    (∀ updateRes, postMemeVote cache id body (Except.error e) updateRes =
      (cache, ⟨[Effect.selectUpvotes id, Effect.logError "Error voting on meme:"],
        ⟨500, JsVal.obj [("error", JsVal.str "Failed to vote on meme")]⟩⟩)) ∧
    (∃ w, postMemeVote cache id body (Except.ok u) (Except.error e) =
      (cache, ⟨[Effect.selectUpvotes id, Effect.updateUpvotes id w,
          Effect.logError "Error voting on meme:"],
        ⟨500, JsVal.obj [("error", JsVal.str "Failed to vote on meme")]⟩⟩)) ∧
    postMemeBid cache id body now (Except.error e) =
      (cache, ⟨[Effect.insertBid ⟨id, getField body "user_id", getField body "credits", now⟩,
          Effect.logError "Error placing bid:"],
        ⟨500, JsVal.obj [("error", JsVal.str "Failed to place bid")]⟩⟩) := by
  refine ⟨?_, fun _ => rfl, ⟨_, rfl⟩, rfl⟩
  cases h1 : generateAICaption cache (getField body "tags") gen1 rnd1 with
  | error e1 =>
    simp [postMemes, h1, errorResponse, Effect.isEmit, Effect.isStoreCall]
  | ok r1 =>
    obtain ⟨s1, e1⟩ := generateAICaption_trace _ _ _ _ _ h1
    cases h2 : generateVibeAnalysis r1.cache (getField body "tags") (getField body "title")
        gen2 rnd2 with
    | error e2 =>
      simp [postMemes, h1, h2, errorResponse, Effect.isEmit, Effect.isStoreCall, s1, e1]
    | ok r2 =>
      obtain ⟨s2, e2⟩ := generateVibeAnalysis_trace _ _ _ _ _ _ h2
      simp [postMemes, h1, h2, errorResponse, Effect.isEmit, Effect.isStoreCall, s1, e1, s2, e2]

/-- C10: a vote whose read and update both succeed performs the read, the update and then
exactly one broadcast `io.emit('vote_update', ...)` to all clients, with the payload
`{meme_id: id of the path, new_upvotes: upvotes of the meme the store returned}`, and answers
with that meme. -/
theorem postMemeVote_success_broadcast (cache : Cache) (id : String) (body : JsObj) (u : Int)
    (meme : JsObj) :
    (∃ w, postMemeVote cache id body (Except.ok u) (Except.ok meme) =
      (cache, ⟨[Effect.selectUpvotes id, Effect.updateUpvotes id w,
          Effect.emit "vote_update"
            (JsVal.obj [("meme_id", JsVal.str id), ("new_upvotes", getField meme "upvotes")])],
        ⟨200, JsVal.obj meme⟩⟩)) ∧
    (postMemeVote cache id body (Except.ok u) (Except.ok meme)).2.trace.filter Effect.isEmit =
      [Effect.emit "vote_update"
        (JsVal.obj [("meme_id", JsVal.str id), ("new_upvotes", getField meme "upvotes")])] :=
  ⟨⟨_, rfl⟩, rfl⟩

theorem generateAICaption_no_insert (cache : Cache) (tags : JsVal) (svc : GenOutcome)
    (rnd : RandomDraw) (r : GenResult) (h : generateAICaption cache tags svc rnd = Except.ok r)
    (x : Effect) (hx : x ∈ r.trace) : x.isStoreCall = false ∧ x.isEmit = false := by
  obtain ⟨hs, he⟩ := generateAICaption_trace cache tags svc rnd r h
  rw [List.filter_eq_nil_iff] at hs he
  exact ⟨by simpa using hs x hx, by simpa using he x hx⟩

theorem generateVibeAnalysis_no_insert (cache : Cache) (tags title : JsVal) (svc : GenOutcome)
    (rnd : RandomDraw) (r : GenResult)
    (h : generateVibeAnalysis cache tags title svc rnd = Except.ok r)
    (x : Effect) (hx : x ∈ r.trace) : x.isStoreCall = false ∧ x.isEmit = false := by
  obtain ⟨hs, he⟩ := generateVibeAnalysis_trace cache tags title svc rnd r h
  rw [List.filter_eq_nil_iff] at hs he
  exact ⟨by simpa using hs x hx, by simpa using he x hx⟩

/-- The shape of every run of the create handler that hands a record to the store. -/
theorem postMemes_insert_shape (cache : Cache) (body : JsObj) (now : Int)
    (gen1 gen2 : GenOutcome) (rnd1 rnd2 : RandomDraw) (insertRes : StoreResult JsObj)
    (record : MemeRecord)
    (h : Effect.insertMeme record ∈
      (postMemes cache body now gen1 gen2 rnd1 rnd2 insertRes).2.trace) :
    ∃ r1 r2,
      generateAICaption cache (getField body "tags") gen1 rnd1 = Except.ok r1 ∧
      generateVibeAnalysis r1.cache (getField body "tags") (getField body "title") gen2 rnd2 =
        Except.ok r2 ∧
      record = ⟨getField body "title", getField body "image_url", getField body "tags",
        getField body "owner_id", r1.value, r2.value, 0, now,
        jsOr (getField body "overlay_text") JsVal.null,
        jsOr (getField body "overlay_position") (JsVal.str "bottom")⟩ := by
  cases h1 : generateAICaption cache (getField body "tags") gen1 rnd1 with
  | error e1 => simp [postMemes, h1] at h
  | ok r1 =>
    cases h2 : generateVibeAnalysis r1.cache (getField body "tags") (getField body "title")
        gen2 rnd2 with
    | error e2 =>
      simp only [postMemes, h1, h2, List.mem_append, List.mem_singleton] at h
      rcases h with h | h
      · exact absurd (generateAICaption_no_insert _ _ _ _ _ h1 _ h).1 (by simp [Effect.isStoreCall])
      · cases h
    | ok r2 =>
      refine ⟨r1, r2, rfl, h2, ?_⟩
      have key : Effect.insertMeme record ∈ r1.trace ∨ Effect.insertMeme record ∈ r2.trace ∨
          record = ⟨getField body "title", getField body "image_url", getField body "tags",
            getField body "owner_id", r1.value, r2.value, 0, now,
            jsOr (getField body "overlay_text") JsVal.null,
            jsOr (getField body "overlay_position") (JsVal.str "bottom")⟩ := by
        cases insertRes with
        | error e =>
          simp only [postMemes, h1, h2, List.mem_append, List.mem_cons, List.mem_singleton,
            Effect.insertMeme.injEq, List.not_mem_nil, or_false] at h
          rcases h with (h | h) | h | h
          · exact Or.inl h
          · exact Or.inr (Or.inl h)
          · exact Or.inr (Or.inr h)
          · cases h
        | ok meme =>
          simp only [postMemes, h1, h2, List.mem_append, List.mem_cons, List.mem_singleton,
            Effect.insertMeme.injEq, List.not_mem_nil, or_false] at h
          rcases h with (h | h) | h | h
          · exact Or.inl h
          · exact Or.inr (Or.inl h)
          · exact Or.inr (Or.inr h)
          · cases h
      rcases key with h | h | h
      · exact absurd (generateAICaption_no_insert _ _ _ _ _ h1 _ h).1 (by simp [Effect.isStoreCall])
      · exact absurd (generateVibeAnalysis_no_insert _ _ _ _ _ _ h2 _ h).1
          (by simp [Effect.isStoreCall])
      · exact h

/-- Counterexample to C11 as stated: a creation request with `overlay_position: "sideways"`
has exactly that value inserted, and "sideways" is none of top, middle, bottom. -/
theorem postMemes_inserts_unchecked_overlay_position :
    (postMemes Cache.init bodySideways 1000 (Except.ok "Doge hacks the matrix")
        (Except.ok "Neon Crypto Chaos") sampleDraw sampleDraw
        (Except.ok sampleMemeRow)).2.trace.filter Effect.isStoreCall =
      [Effect.insertMeme ⟨JsVal.str "Doge Rocket", JsVal.str "http://x/y.png",
        JsVal.arr [JsVal.str "doge", JsVal.str "rocket"], JsVal.num 1,
        "Doge hacks the matrix", "Neon Crypto Chaos", 0, 1000,
        JsVal.str "to the moon", JsVal.str "sideways"⟩] ∧
    JsVal.str "sideways" ≠ JsVal.str "top" ∧
    JsVal.str "sideways" ≠ JsVal.str "middle" ∧
    JsVal.str "sideways" ≠ JsVal.str "bottom" := by
  refine ⟨rfl, ?_, ?_, ?_⟩ <;> simp

/-- C11 amended: every record the create handler hands to the store insert has `upvotes` 0,
`title`, `image_url`, `tags`, `owner_id` equal to the request's fields, `ai_caption` and
`vibe_analysis` equal to the strings returned by the two generator calls, `overlay_position`
equal to the request's value when that is a non-empty string (any truthy value) and "bottom"
when it is absent or empty (any falsy value), and `overlay_text` equal to the request's value
when non-empty (truthy) and `null` otherwise.  The position is not checked against top,
middle, bottom.  A request with a tag list and a title that converts to text hands exactly
one record to the store. -/
theorem postMemes_inserted_record (cache : Cache) (body : JsObj) (now : Int)
    (gen1 gen2 : GenOutcome) (rnd1 rnd2 : RandomDraw) (insertRes : StoreResult JsObj) :
    (∀ record, Effect.insertMeme record ∈
        (postMemes cache body now gen1 gen2 rnd1 rnd2 insertRes).2.trace →
      record.upvotes = 0 ∧
      record.title = getField body "title" ∧
      record.image_url = getField body "image_url" ∧
      record.tags = getField body "tags" ∧
      record.owner_id = getField body "owner_id" ∧
      (∃ r1 r2,
        generateAICaption cache (getField body "tags") gen1 rnd1 = Except.ok r1 ∧
        generateVibeAnalysis r1.cache (getField body "tags") (getField body "title") gen2 rnd2 =
          Except.ok r2 ∧
        record.ai_caption = r1.value ∧ record.vibe_analysis = r2.value) ∧
      (∀ s, getField body "overlay_position" = JsVal.str s → s ≠ "" →
        record.overlay_position = JsVal.str s) ∧
      (getField body "overlay_position" = JsVal.undefined ∨
        getField body "overlay_position" = JsVal.str "" →
        record.overlay_position = JsVal.str "bottom") ∧
      (truthy (getField body "overlay_position") = true →
        record.overlay_position = getField body "overlay_position") ∧
      (truthy (getField body "overlay_position") = false →
        record.overlay_position = JsVal.str "bottom") ∧
      (∀ s, getField body "overlay_text" = JsVal.str s → s ≠ "" →
        record.overlay_text = JsVal.str s) ∧
      (truthy (getField body "overlay_text") = true →
        record.overlay_text = getField body "overlay_text") ∧
      (truthy (getField body "overlay_text") = false → record.overlay_text = JsVal.null)) ∧
    (∀ tags t, getField body "tags" = tagsVal tags →
      (getField body "title").toStr = Except.ok t →
      ∃ record, (postMemes cache body now gen1 gen2 rnd1 rnd2 insertRes).2.trace.filter
        Effect.isStoreCall = [Effect.insertMeme record]) := by
  constructor
  · intro record h
    obtain ⟨r1, r2, h1, h2, hrec⟩ :=
      postMemes_insert_shape cache body now gen1 gen2 rnd1 rnd2 insertRes record h
    subst hrec
    refine ⟨rfl, rfl, rfl, rfl, rfl, ⟨r1, r2, h1, h2, rfl, rfl⟩, ?_, ?_, ?_, ?_, ?_, ?_, ?_⟩
    · intro s hs hne
      simp [jsOr, hs, truthy, hne]
    · intro hs
      rcases hs with hs | hs <;> simp [jsOr, hs, truthy]
    · intro ht
      simp [jsOr, ht]
    · intro ht
      simp [jsOr, ht]
    · intro s hs hne
      simp [jsOr, hs, truthy, hne]
    · intro ht
      simp [jsOr, ht]
    · intro ht
      simp [jsOr, ht]
  · intro tags t htags ht
    obtain ⟨r1, hr1⟩ := generateAICaption_total cache tags gen1 rnd1
    obtain ⟨r2, hr2⟩ := generateVibeAnalysis_total r1.cache tags (getField body "title") t gen2
      rnd2 ht
    obtain ⟨s1, _⟩ := generateAICaption_trace _ _ _ _ _ hr1
    obtain ⟨s2, _⟩ := generateVibeAnalysis_trace _ _ _ _ _ _ hr2
    cases insertRes with
    | error e =>
      exact ⟨_, by
        simp only [postMemes, htags, hr1, hr2, List.filter_append, s1, s2]
        rfl⟩
    | ok meme =>
      exact ⟨_, by
        simp only [postMemes, htags, hr1, hr2, List.filter_append, s1, s2]
        rfl⟩

/-- Witness of C11 amended: the request with tags doge, rocket and no overlay fields gets the
record with `upvotes` 0, `overlay_text` null and `overlay_position` "bottom". -/
theorem postMemes_inserted_record_witness :
    ∃ record, Effect.insertMeme record ∈
        (postMemes Cache.init bodyDogeRocket 1000 (Except.ok "Doge hacks the matrix")
          (Except.ok "Neon Crypto Chaos") sampleDraw sampleDraw (Except.ok sampleMemeRow)).2.trace ∧
      record.upvotes = 0 ∧ record.title = JsVal.str "Doge Rocket" ∧
      record.overlay_position = JsVal.str "bottom" ∧ record.overlay_text = JsVal.null := by
  have hmem : Effect.insertMeme ⟨JsVal.str "Doge Rocket", JsVal.str "http://x/y.png",
        JsVal.arr [JsVal.str "doge", JsVal.str "rocket"], JsVal.num 1,
        "Doge hacks the matrix", "Neon Crypto Chaos", 0, 1000, JsVal.null, JsVal.str "bottom"⟩ ∈
      (postMemes Cache.init bodyDogeRocket 1000 (Except.ok "Doge hacks the matrix")
        (Except.ok "Neon Crypto Chaos") sampleDraw sampleDraw (Except.ok sampleMemeRow)).2.trace := by
    have ht : (postMemes Cache.init bodyDogeRocket 1000 (Except.ok "Doge hacks the matrix")
        (Except.ok "Neon Crypto Chaos") sampleDraw sampleDraw (Except.ok sampleMemeRow)).2.trace =
        [Effect.generate (captionPrompt "doge, rocket"),
         Effect.generate (vibePrompt "Doge Rocket" "doge, rocket"),
         Effect.insertMeme ⟨JsVal.str "Doge Rocket", JsVal.str "http://x/y.png",
           JsVal.arr [JsVal.str "doge", JsVal.str "rocket"], JsVal.num 1,
           "Doge hacks the matrix", "Neon Crypto Chaos", 0, 1000, JsVal.null,
           JsVal.str "bottom"⟩,
         Effect.emit "new_meme" (JsVal.obj sampleMemeRow)] := rfl
    rw [ht]
    simp
  obtain ⟨h0, htitle, _, _, _, _, _, hpos, _, _, _, _, htext⟩ :=
    (postMemes_inserted_record Cache.init bodyDogeRocket 1000 (Except.ok "Doge hacks the matrix")
      (Except.ok "Neon Crypto Chaos") sampleDraw sampleDraw (Except.ok sampleMemeRow)).1 _ hmem
  exact ⟨_, hmem, h0, htitle, hpos (Or.inl rfl), htext rfl⟩

/-- Counterexample to C13 as stated: in the successful run for the request with tags doge,
rocket from the empty cache, both generation requests are issued before the store insert,
which is the third effect, not the first. -/
theorem postMemes_generates_before_insert :
    (postMemes Cache.init bodyDogeRocket 1000 (Except.ok "Doge hacks the matrix")
        (Except.ok "Neon Crypto Chaos") sampleDraw sampleDraw (Except.ok sampleMemeRow)).2 =
      ⟨[Effect.generate (captionPrompt "doge, rocket"),
        Effect.generate (vibePrompt "Doge Rocket" "doge, rocket"),
        Effect.insertMeme ⟨JsVal.str "Doge Rocket", JsVal.str "http://x/y.png",
          JsVal.arr [JsVal.str "doge", JsVal.str "rocket"], JsVal.num 1,
          "Doge hacks the matrix", "Neon Crypto Chaos", 0, 1000, JsVal.null,
          JsVal.str "bottom"⟩,
        Effect.emit "new_meme" (JsVal.obj sampleMemeRow)],
       ⟨200, JsVal.obj sampleMemeRow⟩⟩ := by
  rfl

/-- C13 amended: in every successful run of the create handler the effects occur in this
order: the caption generator call, then the vibe generator call (each with its external
request when the memo cache misses), then the store insert of the record that carries both
generated texts, then the `new_meme` broadcast of the created meme, then the HTTP response
with that meme.  The generator calls perform no store call and no broadcast. -/
theorem postMemes_success_order (cache : Cache) (body : JsObj) (now : Int)
    (gen1 gen2 : GenOutcome) (rnd1 rnd2 : RandomDraw) (insertRes : StoreResult JsObj)
    (hok : (postMemes cache body now gen1 gen2 rnd1 rnd2 insertRes).2.response.status = 200) :
    ∃ r1 r2 record meme,
      generateAICaption cache (getField body "tags") gen1 rnd1 = Except.ok r1 ∧
      generateVibeAnalysis r1.cache (getField body "tags") (getField body "title") gen2 rnd2 =
        Except.ok r2 ∧
      insertRes = Except.ok meme ∧
      record.ai_caption = r1.value ∧ record.vibe_analysis = r2.value ∧
      (postMemes cache body now gen1 gen2 rnd1 rnd2 insertRes).2.trace =
        r1.trace ++ r2.trace ++
          [Effect.insertMeme record, Effect.emit "new_meme" (JsVal.obj meme)] ∧
      (postMemes cache body now gen1 gen2 rnd1 rnd2 insertRes).2.response =
        ⟨200, JsVal.obj meme⟩ ∧
      (r1.trace ++ r2.trace).filter Effect.isStoreCall = [] ∧
      (r1.trace ++ r2.trace).filter Effect.isEmit = [] := by
  cases h1 : generateAICaption cache (getField body "tags") gen1 rnd1 with
  | error e1 => simp [postMemes, h1, errorResponse] at hok
  | ok r1 =>
    cases h2 : generateVibeAnalysis r1.cache (getField body "tags") (getField body "title")
        gen2 rnd2 with
    | error e2 => simp [postMemes, h1, h2, errorResponse] at hok
    | ok r2 =>
      cases insertRes with
      | error e => simp [postMemes, h1, h2, errorResponse] at hok
      | ok meme =>
        obtain ⟨s1, e1⟩ := generateAICaption_trace _ _ _ _ _ h1
        obtain ⟨s2, e2⟩ := generateVibeAnalysis_trace _ _ _ _ _ _ h2
        refine ⟨r1, r2, ⟨getField body "title", getField body "image_url",
          getField body "tags", getField body "owner_id", r1.value, r2.value, 0, now,
          jsOr (getField body "overlay_text") JsVal.null,
          jsOr (getField body "overlay_position") (JsVal.str "bottom")⟩, meme,
          rfl, h2, rfl, rfl, rfl, ?_, ?_, ?_, ?_⟩
        · simp only [postMemes, h1, h2]
        · simp only [postMemes, h1, h2]; rfl
        · rw [List.filter_append, s1, s2]; rfl
        · rw [List.filter_append, e1, e2]; rfl

/-- Witness of C13 amended: the successful run for the request with tags doge, rocket. -/
theorem postMemes_success_order_witness :
    ∃ (r1 r2 : GenResult) (record : MemeRecord) (meme : JsObj),
      (postMemes Cache.init bodyDogeRocket 1000 (Except.ok "Doge hacks the matrix")
        (Except.ok "Neon Crypto Chaos") sampleDraw sampleDraw (Except.ok sampleMemeRow)).2.trace =
        r1.trace ++ r2.trace ++
          [Effect.insertMeme record, Effect.emit "new_meme" (JsVal.obj meme)] ∧
      (r1.trace ++ r2.trace).filter Effect.isStoreCall = [] := by
  obtain ⟨r1, r2, record, meme, _, _, _, _, _, htrace, _, hs, _⟩ :=
    postMemes_success_order Cache.init bodyDogeRocket 1000 (Except.ok "Doge hacks the matrix")
      (Except.ok "Neon Crypto Chaos") sampleDraw sampleDraw (Except.ok sampleMemeRow) rfl
  exact ⟨r1, r2, record, meme, htrace, hs⟩

/-- Counterexample to C14 as stated: a bid request with `credits: -5` has the bid with
credits -5 handed to the store insert, and a request without `credits` has `undefined`
handed over; neither is a positive integer. -/
theorem postMemeBid_inserts_unchecked_credits :
    (postMemeBid Cache.init "7" bodyNegativeBid 1000 (Except.ok sampleBidRow)).2.trace.filter
        Effect.isStoreCall = [Effect.insertBid ⟨"7", JsVal.num 2, JsVal.num (-5), 1000⟩] ∧
    (postMemeBid Cache.init "7" [("user_id", JsVal.num 2)] 1000
        (Except.ok sampleBidRow)).2.trace.filter Effect.isStoreCall =
      [Effect.insertBid ⟨"7", JsVal.num 2, JsVal.undefined, 1000⟩] ∧
    (¬ ∃ n : Int, 0 < n ∧ JsVal.num (-5) = JsVal.num n) ∧
    (¬ ∃ n : Int, 0 < n ∧ JsVal.undefined = JsVal.num n) := by
  refine ⟨rfl, rfl, ?_, ?_⟩
  · rintro ⟨n, hn, h⟩
    have : (-5 : Int) = n := JsVal.num.inj h
    omega
  · rintro ⟨n, _, h⟩
    cases h

/-- C14 amended: every run of the bid handler hands exactly one bid to the store insert,
with `meme_id` equal to the id of the request path, `user_id` equal to the request's
`user_id` and `credits` equal to the request's `credits` as sent; the server does not check
the credits, so they are a positive integer exactly when the request's credits are. -/
theorem postMemeBid_inserted_record (cache : Cache) (id : String) (body : JsObj) (now : Int)
    (insertRes : StoreResult JsObj) :
    (∃ record : BidRecord,
      (postMemeBid cache id body now insertRes).2.trace.filter Effect.isStoreCall =
        [Effect.insertBid record] ∧
      record.meme_id = id ∧
      record.user_id = getField body "user_id" ∧
      record.credits = getField body "credits" ∧
      record.created_at = now ∧
      ((∃ n : Int, 0 < n ∧ record.credits = JsVal.num n) ↔
        ∃ n : Int, 0 < n ∧ getField body "credits" = JsVal.num n)) := by
  refine ⟨⟨id, getField body "user_id", getField body "credits", now⟩, ?_, rfl, rfl, rfl, rfl,
    Iff.rfl⟩
  cases insertRes <;> rfl

theorem generateAICaption_cache_fields (cache : Cache) (tags : JsVal) (svc : GenOutcome)
    (rnd : RandomDraw) (r : GenResult) (h : generateAICaption cache tags svc rnd = Except.ok r) :
    r.cache.leaderboard = cache.leaderboard ∧
    r.cache.lastLeaderboardUpdate = cache.lastLeaderboardUpdate := by
  cases hj : jsJoin tags "_" with
  | error e => simp [generateAICaption, hj] at h
  | ok joined =>
    cases hl : cache.aiResponses.lookup ("caption_" ++ joined) with
    | some v =>
      simp only [generateAICaption, hj, hl, Except.ok.injEq] at h
      subst h; exact ⟨rfl, rfl⟩
    | none =>
      cases hj2 : jsJoin tags ", " with
      | error e =>
        simp only [generateAICaption, hj, hl, hj2, Except.ok.injEq] at h
        subst h; exact ⟨rfl, rfl⟩
      | ok tagList =>
        cases svc with
        | error e =>
          simp only [generateAICaption, hj, hl, hj2, Except.ok.injEq] at h
          subst h; exact ⟨rfl, rfl⟩
        | ok text =>
          simp only [generateAICaption, hj, hl, hj2, Except.ok.injEq] at h
          subst h; exact ⟨rfl, rfl⟩

theorem generateVibeAnalysis_cache_fields (cache : Cache) (tags title : JsVal)
    (svc : GenOutcome) (rnd : RandomDraw) (r : GenResult)
    (h : generateVibeAnalysis cache tags title svc rnd = Except.ok r) :
    r.cache.leaderboard = cache.leaderboard ∧
    r.cache.lastLeaderboardUpdate = cache.lastLeaderboardUpdate := by
  cases hj : vibeCacheKey tags title with
  | error e => simp [generateVibeAnalysis, hj] at h
  | ok key =>
    cases hl : cache.aiResponses.lookup key with
    | some v =>
      simp only [generateVibeAnalysis, hj, hl, Except.ok.injEq] at h
      subst h; exact ⟨rfl, rfl⟩
    | none =>
      cases hj2 : vibePromptOf tags title with
      | error e =>
        simp only [generateVibeAnalysis, hj, hl, hj2, Except.ok.injEq] at h
        subst h; exact ⟨rfl, rfl⟩
      | ok prompt =>
        cases svc with
        | error e =>
          simp only [generateVibeAnalysis, hj, hl, hj2, Except.ok.injEq] at h
          subst h; exact ⟨rfl, rfl⟩
        | ok text =>
          simp only [generateVibeAnalysis, hj, hl, hj2, Except.ok.injEq] at h
          subst h; exact ⟨rfl, rfl⟩

theorem postMemes_cache_fields (cache : Cache) (body : JsObj) (now : Int)
    (gen1 gen2 : GenOutcome) (rnd1 rnd2 : RandomDraw) (insertRes : StoreResult JsObj) :
    (postMemes cache body now gen1 gen2 rnd1 rnd2 insertRes).1.leaderboard = cache.leaderboard ∧
    (postMemes cache body now gen1 gen2 rnd1 rnd2 insertRes).1.lastLeaderboardUpdate =
      cache.lastLeaderboardUpdate := by
  cases h1 : generateAICaption cache (getField body "tags") gen1 rnd1 with
  | error e1 => simp [postMemes, h1]
  | ok r1 =>
    obtain ⟨a1, b1⟩ := generateAICaption_cache_fields _ _ _ _ _ h1
    cases h2 : generateVibeAnalysis r1.cache (getField body "tags") (getField body "title")
        gen2 rnd2 with
    | error e2 => simp [postMemes, h1, h2, a1, b1]
    | ok r2 =>
      obtain ⟨a2, b2⟩ := generateVibeAnalysis_cache_fields _ _ _ _ _ _ h2
      cases insertRes <;> simp [postMemes, h1, h2, a1, b1, a2, b2]

/-- C15: the create, vote and bid handlers leave `cache.leaderboard` and
`cache.lastLeaderboardUpdate` as they were, whatever the request and whether it succeeds or
fails (vote and bid leave the whole cache untouched).  So a leaderboard request made less
than 30000 ms after the cache was filled is served, after a vote, from the list cached before
the vote, without a store query and whatever the store holds by then. -/
theorem mutating_handlers_keep_leaderboard_cache (cache : Cache) (id : String)
    (body : JsObj) (now : Int) (gen1 gen2 : GenOutcome) (rnd1 rnd2 : RandomDraw)
    (insertRes : StoreResult JsObj) (fetchRes : StoreResult Int)
    (updateRes bidRes : StoreResult JsObj) :
    ((postMemes cache body now gen1 gen2 rnd1 rnd2 insertRes).1.leaderboard =
        cache.leaderboard ∧
      (postMemes cache body now gen1 gen2 rnd1 rnd2 insertRes).1.lastLeaderboardUpdate =
        cache.lastLeaderboardUpdate) ∧
    (postMemeVote cache id body fetchRes updateRes).1 = cache ∧
    (postMemeBid cache id body now bidRes).1 = cache ∧
    (∀ (query : JsObj) (t : Int) (queryRes : StoreResult (List JsObj)) (board : List JsObj)
        (topN : Nat),
      cache.leaderboard = some board → t - cache.lastLeaderboardUpdate < 30000 →
      jsParseInt (topOf query) = Except.ok (some (topN : Int)) →
      getLeaderboard (postMemeVote cache id body fetchRes updateRes).1 query t queryRes =
        (cache, ⟨[], ⟨200, JsVal.arr ((board.take topN).map JsVal.obj)⟩⟩)) := by
  have hvote : (postMemeVote cache id body fetchRes updateRes).1 = cache := by
    cases fetchRes with
    | error e => rfl
    | ok u => cases updateRes <;> rfl
  refine ⟨postMemes_cache_fields cache body now gen1 gen2 rnd1 rnd2 insertRes, hvote, ?_, ?_⟩
  · cases bidRes <;> rfl
  · intro query t queryRes board topN hb hage hTop
    rw [hvote]
    have hf : freshLeaderboard cache t = some board := by
      simp [freshLeaderboard, hb, hage]
    simp [getLeaderboard, hf, hTop, sliceTo_natCast, okResponse]

/-- Witness of C15: the cache filled at time 1000 with the sample ordering still serves that
ordering for `top=2` at time 30999, after a successful upvote of meme 3 and with the store
answering with a different ordering. -/
theorem mutating_handlers_keep_leaderboard_cache_witness :
    getLeaderboard (postMemeVote sampleCache "3" [("vote_type", JsVal.str "up")]
        (Except.ok (-1)) (Except.ok [("id", JsVal.num 3), ("upvotes", JsVal.num 0)])).1
        [("top", JsVal.str "2")] 30999 (Except.ok sampleMemes.reverse) =
      (sampleCache, ⟨[], ⟨200, JsVal.arr ((sampleMemes.take 2).map JsVal.obj)⟩⟩) :=
  (mutating_handlers_keep_leaderboard_cache sampleCache "3" [("vote_type", JsVal.str "up")]
    1000 (Except.error ⟨"unused"⟩) (Except.error ⟨"unused"⟩) sampleDraw sampleDraw
    (Except.error ⟨"unused"⟩) (Except.ok (-1))
    (Except.ok [("id", JsVal.num 3), ("upvotes", JsVal.num 0)])
    (Except.error ⟨"unused"⟩)).2.2.2 [("top", JsVal.str "2")] 30999
    (Except.ok sampleMemes.reverse) sampleMemes 2 rfl (by decide) rfl

theorem caption_key_ne_vibe_key (a b : String) : "caption_" ++ a ≠ "vibe_" ++ b := by
  intro h
  have hd := congrArg String.data h
  simp only [String.data_append] at hd
  have hc : ('c' : Char) = 'v' := by
    have := List.head_eq_of_cons_eq hd
    exact this
  exact absurd hc (by decide)

theorem lookup_set_ne (m : Memo) (k j v : String) (hne : j ≠ k) :
    (Memo.set m k v).lookup j = m.lookup j := by
  have hjk : (j == k) = false := by simpa using hne
  induction m with
  | nil => simp [Memo.set, List.lookup, hjk]
  | cons e rest ih =>
    obtain ⟨ek, ev⟩ := e
    by_cases h : ek = k
    · subst h
      simp [Memo.set, List.lookup, hjk]
    · have h1 : (ek == k) = false := by simpa using h
      simp only [Memo.set, h1, List.lookup, ih]

/-- C16: the cache key of `generateAICaption(tags)`, "caption_" followed by the tags joined
by "_", differs from the cache key of `generateVibeAnalysis(tags2, title)`, "vibe_" followed
by the joined tags, "_" and the title, for all tag lists and every title.  A caption call
stores its text under the caption key and leaves the entry of every vibe key as it was, and
a vibe call leaves the entry of every caption key as it was, so neither generator is served
the other one's cached text. -/
theorem caption_and_vibe_keys_disjoint (tags tags2 : List String) (title : JsVal) :
    (∀ key, vibeCacheKey (tagsVal tags2) title = Except.ok key →
      "caption_" ++ String.intercalate "_" tags ≠ key) ∧
    (∀ t, title.toStr = Except.ok t →
      vibeCacheKey (tagsVal tags2) title =
        Except.ok ("vibe_" ++ String.intercalate "_" tags2 ++ "_" ++ t)) ∧
    (∀ cache text rnd,
      cache.aiResponses.lookup ("caption_" ++ String.intercalate "_" tags) = none →
      ∃ r, generateAICaption cache (tagsVal tags) (Except.ok text) rnd = Except.ok r ∧
        r.cache.aiResponses.lookup ("caption_" ++ String.intercalate "_" tags) =
          some (jsTrim text)) ∧
    (∀ cache svc rnd r key,
      generateAICaption cache (tagsVal tags) svc rnd = Except.ok r →
      vibeCacheKey (tagsVal tags2) title = Except.ok key →
      r.cache.aiResponses.lookup key = cache.aiResponses.lookup key) ∧
    (∀ cache svc rnd r,
      generateVibeAnalysis cache (tagsVal tags2) title svc rnd = Except.ok r →
      r.cache.aiResponses.lookup ("caption_" ++ String.intercalate "_" tags) =
        cache.aiResponses.lookup ("caption_" ++ String.intercalate "_" tags)) := by
  have hkey : ∀ key, vibeCacheKey (tagsVal tags2) title = Except.ok key →
      "caption_" ++ String.intercalate "_" tags ≠ key := by
    intro key hk
    cases ht : title.toStr with
    | error e => simp [vibeCacheKey, jsJoin_tagsVal, ht] at hk
    | ok t =>
      rw [vibeCacheKey_tagsVal tags2 title t ht] at hk
      have hk2 := Except.ok.inj hk
      rw [← hk2, String.append_assoc, String.append_assoc]
      exact caption_key_ne_vibe_key _ _
  refine ⟨hkey, fun t ht => vibeCacheKey_tagsVal tags2 title t ht, ?_, ?_, ?_⟩
  · intro cache text rnd hmiss
    exact ⟨_, generateAICaption_miss_ok cache tags text rnd hmiss, lookup_set_self _ _ _⟩
  · intro cache svc rnd r key hr hk
    have hne : key ≠ "caption_" ++ String.intercalate "_" tags := fun e => hkey key hk e.symm
    cases hl : cache.aiResponses.lookup ("caption_" ++ String.intercalate "_" tags) with
    | some v =>
      rw [generateAICaption_hit cache tags svc rnd v hl] at hr
      rw [← Except.ok.inj hr]
    | none =>
      cases svc with
      | error e =>
        rw [generateAICaption_miss_error cache tags e rnd hl] at hr
        rw [← Except.ok.inj hr]
      | ok text =>
        rw [generateAICaption_miss_ok cache tags text rnd hl] at hr
        rw [← Except.ok.inj hr]
        exact lookup_set_ne _ _ _ _ hne
  · intro cache svc rnd r hr
    cases ht : title.toStr with
    | error e => simp [generateVibeAnalysis, vibeCacheKey, jsJoin_tagsVal, ht] at hr
    | ok t =>
      have hne : "caption_" ++ String.intercalate "_" tags ≠
          "vibe_" ++ String.intercalate "_" tags2 ++ "_" ++ t :=
        hkey _ (vibeCacheKey_tagsVal tags2 title t ht)
      cases hl : cache.aiResponses.lookup
          ("vibe_" ++ String.intercalate "_" tags2 ++ "_" ++ t) with
      | some v =>
        rw [generateVibeAnalysis_hit cache tags2 title t svc rnd v ht hl] at hr
        rw [← Except.ok.inj hr]
      | none =>
        cases svc with
        | error e =>
          rw [generateVibeAnalysis_miss_error cache tags2 title t e rnd ht hl] at hr
          rw [← Except.ok.inj hr]
        | ok text =>
          rw [generateVibeAnalysis_miss_ok cache tags2 title t text rnd ht hl] at hr
          rw [← Except.ok.inj hr]
          exact lookup_set_ne _ _ _ _ hne

/-- Witness of C16: for the tags doge, stonks and the title "Doge Rocket" the two keys are
"caption_doge_stonks" and "vibe_doge_stonks_Doge Rocket", and the vibe call that follows a
cached caption still issues its own generation request. -/
theorem caption_and_vibe_keys_disjoint_witness :
    "caption_" ++ String.intercalate "_" ["doge", "stonks"] ≠ "vibe_doge_stonks_Doge Rocket" ∧
    cacheAfterDoge.aiResponses.lookup "vibe_doge_stonks_Doge Rocket" =
      Cache.init.aiResponses.lookup "vibe_doge_stonks_Doge Rocket" :=
  ⟨(caption_and_vibe_keys_disjoint ["doge", "stonks"] ["doge", "stonks"]
      (JsVal.str "Doge Rocket")).1 "vibe_doge_stonks_Doge Rocket" rfl,
   (caption_and_vibe_keys_disjoint ["doge", "stonks"] ["doge", "stonks"]
      (JsVal.str "Doge Rocket")).2.2.2.1 Cache.init (Except.ok "Doge hacks the matrix")
      sampleDraw ⟨"Doge hacks the matrix", cacheAfterDoge,
        [Effect.generate (captionPrompt "doge, stonks")]⟩ "vibe_doge_stonks_Doge Rocket"
      rfl rfl⟩

/-- C17: the caption cache key is not injective on tag lists: the distinct lists `["a_b"]`
and `["a", "b"]` are both joined to "a_b", so after a call for the first list that was
answered by the service, a call for the second list returns the first list's caption and
issues no external request (its trace is empty and the cache stays as it was). -/
theorem caption_key_collision (cache : Cache) (text : String) (svc2 : GenOutcome)
    (rnd1 rnd2 : RandomDraw) :
    ["a_b"] ≠ ["a", "b"] ∧
    jsJoin (tagsVal ["a_b"]) "_" = Except.ok "a_b" ∧
    jsJoin (tagsVal ["a", "b"]) "_" = Except.ok "a_b" ∧
    ∃ r1, generateAICaption cache (tagsVal ["a_b"]) (Except.ok text) rnd1 = Except.ok r1 ∧
      generateAICaption r1.cache (tagsVal ["a", "b"]) svc2 rnd2 =
        Except.ok ⟨r1.value, r1.cache, []⟩ ∧
      (r1.trace.filter Effect.isGenerate ≠ [] → r1.value = jsTrim text) := by
  refine ⟨by decide, rfl, rfl, ?_⟩
  have hk1 : String.intercalate "_" ["a_b"] = "a_b" := by decide
  have hk2 : String.intercalate "_" ["a", "b"] = "a_b" := by decide
  cases hl : cache.aiResponses.lookup ("caption_" ++ "a_b") with
  | some v =>
    refine ⟨⟨v, cache, []⟩, generateAICaption_hit cache ["a_b"] _ rnd1 v (by rw [hk1]; exact hl),
      generateAICaption_hit cache ["a", "b"] svc2 rnd2 v (by rw [hk2]; exact hl), ?_⟩
    intro hne
    exact absurd rfl hne
  | none =>
    refine ⟨_, generateAICaption_miss_ok cache ["a_b"] text rnd1 (by rw [hk1]; exact hl),
      generateAICaption_hit _ ["a", "b"] svc2 rnd2 (jsTrim text) ?_, fun _ => rfl⟩
    rw [hk1, hk2]
    exact lookup_set_self _ _ _

/-- Witness of C17: from the empty cache the service answers " Doge hacks the matrix " for
`["a_b"]`; the call for `["a", "b"]` then returns the trimmed caption with an empty trace
although the service is unreachable. -/
theorem caption_key_collision_witness :
    ∃ r1, generateAICaption Cache.init (tagsVal ["a_b"])
        (Except.ok " Doge hacks the matrix ") sampleDraw = Except.ok r1 ∧
      generateAICaption r1.cache (tagsVal ["a", "b"]) (Except.error ⟨"service unreachable"⟩)
        sampleDraw = Except.ok ⟨"Doge hacks the matrix", r1.cache, []⟩ := by
  obtain ⟨_, _, _, r1, h1, h2, himp⟩ :=
    caption_key_collision Cache.init " Doge hacks the matrix "
      (Except.error ⟨"service unreachable"⟩) sampleDraw sampleDraw
  have hfirst : generateAICaption Cache.init (tagsVal ["a_b"])
      (Except.ok " Doge hacks the matrix ") sampleDraw =
      Except.ok ⟨"Doge hacks the matrix", ⟨none, 0, [("caption_a_b", "Doge hacks the matrix")]⟩,
        [Effect.generate (captionPrompt "a_b")]⟩ := rfl
  have hr1 : r1 = ⟨"Doge hacks the matrix",
      ⟨none, 0, [("caption_a_b", "Doge hacks the matrix")]⟩,
      [Effect.generate (captionPrompt "a_b")]⟩ := by
    rw [hfirst] at h1
    exact (Except.ok.inj h1).symm
  have hv : r1.value = "Doge hacks the matrix" := by rw [hr1]
  rw [hv] at h2
  exact ⟨r1, h1, h2⟩

theorem digitChar_facts (d : Nat) (h : d < 10) :
    digitValue (Nat.digitChar d) = some d ∧ isJsWhiteSpace (Nat.digitChar d) = false ∧
    Nat.digitChar d ≠ '-' ∧ Nat.digitChar d ≠ '+' ∧ Nat.digitChar d ≠ 'x' ∧
    Nat.digitChar d ≠ 'X' := by
  interval_cases d <;> decide

theorem toDigitsCore_spec (fuel : Nat) : ∀ (n : Nat) (ds : List Char), n < fuel →
    ∃ cs : List Char, Nat.toDigitsCore 10 fuel n ds = cs ++ ds ∧ cs ≠ [] ∧
      (∀ c ∈ cs, ∃ d, d < 10 ∧ c = Nat.digitChar d) ∧
      (cs.filterMap digitValue).foldl (fun acc d => acc * 10 + d) 0 = n := by
  induction fuel with
  | zero => intro n ds h; omega
  | succ fuel ih =>
    intro n ds h
    have hd : n % 10 < 10 := Nat.mod_lt _ (by decide)
    by_cases h0 : n / 10 = 0
    · refine ⟨[Nat.digitChar (n % 10)], ?_, by simp, ?_, ?_⟩
      · simp [Nat.toDigitsCore, h0]
      · intro c hc
        exact ⟨n % 10, hd, by simpa using hc⟩
      · simp only [List.filterMap_cons, (digitChar_facts _ hd).1, List.filterMap_nil,
          List.foldl_cons, List.foldl_nil]
        omega
    · have hlt : n / 10 < fuel := by omega
      obtain ⟨cs, hcs, hne, hall, hval⟩ := ih (n / 10) (Nat.digitChar (n % 10) :: ds) hlt
      refine ⟨cs ++ [Nat.digitChar (n % 10)], ?_, by simp, ?_, ?_⟩
      · simp [Nat.toDigitsCore, h0, hcs]
      · intro c hc
        rcases List.mem_append.1 hc with hc | hc
        · exact hall c hc
        · exact ⟨n % 10, hd, by simpa using hc⟩
      · rw [List.filterMap_append, List.foldl_append, hval]
        simp only [List.filterMap_cons, (digitChar_facts _ hd).1, List.filterMap_nil,
          List.foldl_cons, List.foldl_nil]
        omega

theorem takeDigits_digits (cs : List Char) (hall : ∀ c ∈ cs, ∃ d, d < 10 ∧ c = Nat.digitChar d) :
    takeDigits 10 cs = cs.filterMap digitValue := by
  induction cs with
  | nil => rfl
  | cons c rest ih =>
    obtain ⟨d, hd, rfl⟩ := hall c (List.mem_cons_self _ _)
    have hv := (digitChar_facts d hd).1
    simp only [takeDigits, hv, hd, if_true, List.filterMap_cons]
    rw [ih (fun c hc => hall c (List.mem_cons_of_mem _ hc))]

theorem parseIntStr_digits (cs : List Char) (hne : cs ≠ [])
    (hall : ∀ c ∈ cs, ∃ d, d < 10 ∧ c = Nat.digitChar d) :
    parseIntStr (String.mk cs) =
      some (((cs.filterMap digitValue).foldl (fun acc d => acc * 10 + d) 0 : Nat) : Int) := by
  cases cs with
  | nil => exact absurd rfl hne
  | cons c rest =>
    obtain ⟨d, hd, hc⟩ := hall c (List.mem_cons_self _ _)
    obtain ⟨hv, hws, hm, hp, hx, hX⟩ := digitChar_facts d hd
    rw [← hc] at hv hws hm hp hx hX
    have hdigits := takeDigits_digits (c :: rest) hall
    have hdrop : (c :: rest).dropWhile isJsWhiteSpace = c :: rest := by
      simp [List.dropWhile, hws]
    have hsigned : (match c :: rest with
        | '-' :: t => ((-1 : Int), t)
        | '+' :: t => (1, t)
        | t => (1, t)) = ((1 : Int), c :: rest) := by
      split
      · next t heq => exact absurd (List.head_eq_of_cons_eq heq) hm
      · next t heq => exact absurd (List.head_eq_of_cons_eq heq) hp
      · rfl
    have hbased : (match c :: rest with
        | '0' :: 'x' :: t => ((16 : Nat), t)
        | '0' :: 'X' :: t => (16, t)
        | t => (10, t)) = ((10 : Nat), c :: rest) := by
      split
      · next t heq =>
        exfalso
        have ht := List.tail_eq_of_cons_eq heq
        obtain ⟨d2, hd2, hc2⟩ := hall 'x' (by rw [ht]; simp)
        exact (digitChar_facts d2 hd2).2.2.2.2.1 hc2.symm
      · next t heq =>
        exfalso
        have ht := List.tail_eq_of_cons_eq heq
        obtain ⟨d2, hd2, hc2⟩ := hall 'X' (by rw [ht]; simp)
        exact (digitChar_facts d2 hd2).2.2.2.2.2 hc2.symm
      · rfl
    unfold parseIntStr
    simp only [hdrop, hsigned, hbased, hdigits]
    simp [hv]

theorem parseIntStr_toString (n : Nat) : parseIntStr (toString n) = some (n : Int) := by
  obtain ⟨cs, hcs, hne, hall, hval⟩ := toDigitsCore_spec (n + 1) n [] (Nat.lt_succ_self n)
  have hs : toString n = String.mk cs := by
    show Nat.repr n = String.mk cs
    simp only [Nat.repr, Nat.toDigits, hcs, List.append_nil, List.asString]
  rw [hs, parseIntStr_digits cs hne hall, hval]

theorem jsParseInt_topOf (query : JsObj) (N : Nat)
    (h : getField query "top" = JsVal.str (toString N) ∨
      (getField query "top" = JsVal.undefined ∧ N = 10)) :
    jsParseInt (topOf query) = Except.ok (some (N : Int)) := by
  rcases h with h | ⟨h, rfl⟩
  · simp [jsParseInt, topOf, h, JsVal.toStr, parseIntStr_toString]
  · simp only [jsParseInt, topOf, h, JsVal.toStr]
    rfl

/-- C12: when the request has no `top` query parameter the response is the first 10
entries of the leaderboard ordering (the cached list when it is younger than 30000 ms, the
store's answer otherwise), and for every request with `top=N`, N a natural number written in
decimal, the response is the first N entries of that ordering, so it has exactly
min(N, length of the ordering) entries. -/
theorem getLeaderboard_top_entries (cache : Cache) (query : JsObj) (now : Int) (N : Nat)
    (hTop : getField query "top" = JsVal.str (toString N) ∨
      (getField query "top" = JsVal.undefined ∧ N = 10)) :
    (∀ board queryRes, cache.leaderboard = some board →
      now - cache.lastLeaderboardUpdate < 30000 →
      (getLeaderboard cache query now queryRes).2.response =
        ⟨200, JsVal.arr ((board.take N).map JsVal.obj)⟩ ∧
      ((board.take N).map JsVal.obj).length = min N board.length) ∧
    (∀ memes, (cache.leaderboard = none ∨ 30000 ≤ now - cache.lastLeaderboardUpdate) →
      (getLeaderboard cache query now (Except.ok memes)).2.response =
        ⟨200, JsVal.arr ((memes.take N).map JsVal.obj)⟩ ∧
      ((memes.take N).map JsVal.obj).length = min N memes.length) := by
  have hp := jsParseInt_topOf query N hTop
  constructor
  · intro board queryRes hb hage
    have hf : freshLeaderboard cache now = some board := by
      simp [freshLeaderboard, hb, hage]
    refine ⟨?_, by simp⟩
    simp [getLeaderboard, hf, hp, sliceTo_natCast, okResponse]
  · intro memes h
    have hf : freshLeaderboard cache now = none := by
      rcases h with h | h
      · simp [freshLeaderboard, h]
      · unfold freshLeaderboard
        cases cache.leaderboard with
        | none => rfl
        | some b => simp only []; rw [if_neg (by omega)]
    refine ⟨?_, by simp⟩
    simp [getLeaderboard, hf, hp, sliceTo_natCast, okResponse]

/-- Witness of C12: with the three-entry ordering cached, `top=2` is answered with
its first two entries and a request without `top` with its first 10, that is all three. -/
theorem getLeaderboard_top_entries_witness :
    (getLeaderboard sampleCache [("top", JsVal.str "2")] 2000
        (Except.error ⟨"unused"⟩)).2.response =
      ⟨200, JsVal.arr ((sampleMemes.take 2).map JsVal.obj)⟩ ∧
    (getLeaderboard sampleCache [] 2000 (Except.error ⟨"unused"⟩)).2.response =
      ⟨200, JsVal.arr ((sampleMemes.take 10).map JsVal.obj)⟩ ∧
    ((sampleMemes.take 10).map JsVal.obj).length = min 10 sampleMemes.length :=
  ⟨((getLeaderboard_top_entries sampleCache [("top", JsVal.str "2")] 2000 2 (Or.inl rfl)).1
      sampleMemes (Except.error ⟨"unused"⟩) rfl (by decide)).1,
   ((getLeaderboard_top_entries sampleCache [] 2000 10 (Or.inr ⟨rfl, rfl⟩)).1
      sampleMemes (Except.error ⟨"unused"⟩) rfl (by decide)).1,
   ((getLeaderboard_top_entries sampleCache [] 2000 10 (Or.inr ⟨rfl, rfl⟩)).1
      sampleMemes (Except.error ⟨"unused"⟩) rfl (by decide)).2⟩

end MemeHustle
